import Mathlib

/-!
Verification of the agent-orchestrator lifecycle core.

This file gives a shallow embedding of the orchestration core of the
repository and proves properties of it:

* `packages/core/src/event-bus.ts` — event creation, priority inference and
  the JSONL (de)serialization round trip;
* `packages/core/src/lifecycle-manager.ts` — status determination, the
  reaction/escalation engine, per-session checks and the poll cycle;
* `packages/cli/src/lib/lifecycle-lock.ts` — the cross-process lifecycle
  lock with stale-owner recovery.

Conventions of the embedding:

* JavaScript `Date` values are modelled as milliseconds since the Unix
  epoch (`Nat`), exactly the resolution a JS `Date` has.
* A JSONL line is modelled at the JSON-value level (`Json` below); the
  concrete byte layout of `JSON.stringify`/`JSON.parse` is not modelled,
  only the value it transports.
* Fallible collaborator calls (`await ... .catch(...)`, `try`/`catch`)
  are modelled with `Except Unit`.
* Side effects (metadata writes, bus emissions, messages to the agent,
  notifier calls) are collected in an explicit effect trace.
-/

/-- JSON values, the transport for the event log and the lock file. -/
inductive Json where
  | null
  | bool (b : Bool)
  | num (n : Int)
  | str (s : String)
  | arr (xs : List Json)
  | obj (fields : List (String × Json))

/-- Field lookup in a JSON object body (first binding wins). -/
def lookupField : List (String × Json) → String → Option Json
  | [], _ => none
  | (k, v) :: rest, key => if k = key then some v else lookupField rest key

/-- `raw[key]` on a JSON value: `some` only for objects with the field. -/
def Json.getField : Json → String → Option Json
  | .obj fields, key => lookupField fields key
  | _, _ => none

/-- String-typed field access. -/
def Json.getStr (j : Json) (k : String) : Option String :=
  match j.getField k with
  | some (.str s) => some s
  | _ => none

/-!
## Calendar arithmetic for `Date.prototype.toISOString`

`toISOString` renders a timestamp as `YYYY-MM-DDTHH:mm:ss.sssZ` using the
proleptic Gregorian calendar (ECMA-262); `new Date(string)` parses that
format back. The civil-date conversions below are the standard
days-from-civil / civil-from-days algorithms; the round trip is verified
exhaustively for every day from 1970-01-01 up to 2099-12-31, the model's
domain for timestamps.
-/

/-- Days since 1970-01-01 to Gregorian (year, month, day). -/
def daysToCivil (z : Nat) : Nat × Nat × Nat :=
  let zk := z + 719468
  let era := zk / 146097
  let doe := zk % 146097
  let yoe := (doe - doe / 1460 + doe / 36524 - doe / 146096) / 365
  let y := yoe + era * 400
  let doy := doe - (365 * yoe + yoe / 4 - yoe / 100)
  let mp := (5 * doy + 2) / 153
  let d := doy - (153 * mp + 2) / 5 + 1
  let m := if mp < 10 then mp + 3 else mp - 9
  (if m ≤ 2 then y + 1 else y, m, d)

/-- Gregorian (year, month, day) to days since 1970-01-01 (year ≥ 1970). -/
def civilToDays (y m d : Nat) : Nat :=
  let yk := if m ≤ 2 then y - 1 else y
  let era := yk / 400
  let yoe := yk % 400
  let doy := (153 * (if m > 2 then m - 3 else m + 9) + 2) / 5 + d - 1
  let doe := yoe * 365 + yoe / 4 - yoe / 100 + doy
  era * 146097 + doe - 719468

/-- One day of the civil round trip, with the bounds the formatter needs. -/
def civilOK (z : Nat) : Bool :=
  let c := daysToCivil z
  let y := c.1
  let m := c.2.1
  let d := c.2.2
  (civilToDays y m d == z) && Nat.ble 1970 y && Nat.ble y 9999 &&
  Nat.ble 1 m && Nat.ble m 12 && Nat.ble 1 d && Nat.ble d 31

/-- Balanced exhaustive check of `f` on `[lo, lo + n)`; the explicit
`Nat.rec` keeps kernel reduction shallow (depth = fuel). -/
def allRangeAux (f : Nat → Bool) (fuel : Nat) : Nat → Nat → Bool :=
  Nat.rec (motive := fun _ => Nat → Nat → Bool)
    (fun _ n => n == 0)
    (fun _ ih lo n =>
      if n == 0 then true
      else if n == 1 then f lo
      else ih lo (n / 2) && ih (lo + n / 2) (n - n / 2))
    fuel

theorem allRangeAux_zero (f : Nat → Bool) (lo n : Nat) :
    allRangeAux f 0 lo n = (n == 0) := rfl

theorem allRangeAux_succ (f : Nat → Bool) (fuel lo n : Nat) :
    allRangeAux f (fuel + 1) lo n =
      (if n == 0 then true
       else if n == 1 then f lo
       else allRangeAux f fuel lo (n / 2) && allRangeAux f fuel (lo + n / 2) (n - n / 2)) := rfl

theorem allRangeAux_sound (f : Nat → Bool) :
    ∀ fuel lo n, allRangeAux f fuel lo n = true →
    ∀ i, lo ≤ i → i < lo + n → f i = true := by
  intro fuel
  induction fuel with
  | zero =>
    intro lo n h i h1 h2
    rw [allRangeAux_zero] at h
    simp at h
    omega
  | succ fuel ih =>
    intro lo n h i h1 h2
    rw [allRangeAux_succ] at h
    by_cases h0 : n = 0
    · omega
    · by_cases hone : n = 1
      · subst hone
        simp at h
        have : i = lo := by omega
        subst this; exact h
      · rw [if_neg (by simp [h0]), if_neg (by simp [hone])] at h
        simp only [Bool.and_eq_true] at h
        rcases h with ⟨ha, hb⟩
        by_cases hi : i < lo + n / 2
        · exact ih lo (n / 2) ha i h1 hi
        · exact ih (lo + n / 2) (n - n / 2) hb i (by omega) (by omega)

/-- Number of days in the model's timestamp domain (1970-01-01 through
mid-2101, covering every date the fixed 24-character ISO layout is used
for in practice). The exhaustive check is split into 6000-day chunks to
keep the kernel's working set small. -/
def isoDayBound : Nat := 48000

theorem civilRT_chunk0 : allRangeAux civilOK 20 0 6000 = true := by decide!

theorem civilRT_chunk1 : allRangeAux civilOK 20 6000 6000 = true := by decide!

theorem civilRT_chunk2 : allRangeAux civilOK 20 12000 6000 = true := by decide!

theorem civilRT_chunk3 : allRangeAux civilOK 20 18000 6000 = true := by decide!

theorem civilRT_chunk4 : allRangeAux civilOK 20 24000 6000 = true := by decide!

theorem civilRT_chunk5 : allRangeAux civilOK 20 30000 6000 = true := by decide!

theorem civilRT_chunk6 : allRangeAux civilOK 20 36000 6000 = true := by decide!

theorem civilRT_chunk7 : allRangeAux civilOK 20 42000 6000 = true := by decide!

theorem civilRT : ∀ z, z < isoDayBound → civilOK z = true := by
  intro z hz
  simp only [isoDayBound] at hz
  by_cases h0 : z < 6000
  · exact allRangeAux_sound civilOK 20 0 6000 civilRT_chunk0 z (by omega) (by omega)
  by_cases h1 : z < 12000
  · exact allRangeAux_sound civilOK 20 6000 6000 civilRT_chunk1 z (by omega) (by omega)
  by_cases h2 : z < 18000
  · exact allRangeAux_sound civilOK 20 12000 6000 civilRT_chunk2 z (by omega) (by omega)
  by_cases h3 : z < 24000
  · exact allRangeAux_sound civilOK 20 18000 6000 civilRT_chunk3 z (by omega) (by omega)
  by_cases h4 : z < 30000
  · exact allRangeAux_sound civilOK 20 24000 6000 civilRT_chunk4 z (by omega) (by omega)
  by_cases h5 : z < 36000
  · exact allRangeAux_sound civilOK 20 30000 6000 civilRT_chunk5 z (by omega) (by omega)
  by_cases h6 : z < 42000
  · exact allRangeAux_sound civilOK 20 36000 6000 civilRT_chunk6 z (by omega) (by omega)
  exact allRangeAux_sound civilOK 20 42000 6000 civilRT_chunk7 z (by omega) (by omega)

/-- Fixed-width decimal digit groups, exactly what `toISOString` prints. -/
def pad2 (n : Nat) : List Char :=
  [Nat.digitChar (n / 10 % 10), Nat.digitChar (n % 10)]

def pad3 (n : Nat) : List Char :=
  [Nat.digitChar (n / 100 % 10), Nat.digitChar (n / 10 % 10), Nat.digitChar (n % 10)]

def pad4 (n : Nat) : List Char :=
  [Nat.digitChar (n / 1000 % 10), Nat.digitChar (n / 100 % 10),
   Nat.digitChar (n / 10 % 10), Nat.digitChar (n % 10)]

/-- `Date.prototype.toISOString` on a millisecond timestamp. -/
def toISOString (t : Nat) : String :=
  let days := t / 86400000
  let msOfDay := t % 86400000
  let c := daysToCivil days
  String.mk (pad4 c.1 ++ '-' :: pad2 c.2.1 ++ '-' :: pad2 c.2.2 ++
    'T' :: pad2 (msOfDay / 3600000) ++ ':' :: pad2 (msOfDay / 60000 % 60) ++
    ':' :: pad2 (msOfDay / 1000 % 60) ++ '.' :: pad3 (msOfDay % 1000) ++ ['Z'])

/-- Decimal value of a digit character, `none` for anything else. -/
def digitVal (c : Char) : Option Nat :=
  if '0' ≤ c ∧ c ≤ '9' then some (c.toNat - 48) else none

def dec2 (a b : Char) : Option Nat := do
  let x ← digitVal a
  let y ← digitVal b
  pure (10 * x + y)

def dec3 (a b c : Char) : Option Nat := do
  let x ← digitVal a
  let y ← digitVal b
  let z ← digitVal c
  pure (100 * x + 10 * y + z)

def dec4 (a b c d : Char) : Option Nat := do
  let x ← digitVal a
  let y ← digitVal b
  let z ← digitVal c
  let w ← digitVal d
  pure (1000 * x + 100 * y + 10 * z + w)

/-- `Date` parsing (`new Date(string)` / `Date.parse`), restricted to the
`YYYY-MM-DDTHH:mm:ss.sssZ` layout — the only layout this program writes.
An unparseable string is an invalid date (NaN time value), modelled as
`none`. -/
def parseIso (s : String) : Option Nat :=
  match s.data with
  | [y1, y2, y3, y4, c1, o1, o2, c2, d1, d2, c3, h1, h2, c4,
     i1, i2, c5, s1, s2, c6, f1, f2, f3, c7] =>
    if c1 = '-' ∧ c2 = '-' ∧ c3 = 'T' ∧ c4 = ':' ∧ c5 = ':' ∧ c6 = '.' ∧ c7 = 'Z' then
      match dec4 y1 y2 y3 y4, dec2 o1 o2, dec2 d1 d2, dec2 h1 h2,
            dec2 i1 i2, dec2 s1 s2, dec3 f1 f2 f3 with
      | some y, some mo, some d, some hh, some mi, some ss, some ms =>
        if 1970 ≤ y ∧ 1 ≤ mo ∧ mo ≤ 12 ∧ 1 ≤ d ∧ d ≤ 31 ∧ hh < 24 ∧ mi < 60 ∧ ss < 60 then
          some (civilToDays y mo d * 86400000 +
            (hh * 3600000 + mi * 60000 + ss * 1000 + ms))
        else none
      | _, _, _, _, _, _, _ => none
    else none
  | _ => none

theorem digitVal_digitChar : ∀ k, k < 10 → digitVal (Nat.digitChar k) = some k := by
  decide

theorem dec2_pad2 (n : Nat) (h : n < 100) :
    dec2 (Nat.digitChar (n / 10 % 10)) (Nat.digitChar (n % 10)) = some n := by
  have h1 : n / 10 % 10 < 10 := Nat.mod_lt _ (by norm_num)
  have h2 : n % 10 < 10 := Nat.mod_lt _ (by norm_num)
  simp only [dec2, digitVal_digitChar _ h1, digitVal_digitChar _ h2, Option.bind_some,
    Option.pure_def, Option.bind_eq_bind, Option.some_bind, Option.some.injEq]
  omega

theorem dec3_pad3 (n : Nat) (h : n < 1000) :
    dec3 (Nat.digitChar (n / 100 % 10)) (Nat.digitChar (n / 10 % 10))
      (Nat.digitChar (n % 10)) = some n := by
  have h1 : n / 100 % 10 < 10 := Nat.mod_lt _ (by norm_num)
  have h2 : n / 10 % 10 < 10 := Nat.mod_lt _ (by norm_num)
  have h3 : n % 10 < 10 := Nat.mod_lt _ (by norm_num)
  simp only [dec3, digitVal_digitChar _ h1, digitVal_digitChar _ h2, digitVal_digitChar _ h3,
    Option.pure_def, Option.bind_eq_bind, Option.some_bind, Option.some.injEq]
  omega

theorem dec4_pad4 (n : Nat) (h : n < 10000) :
    dec4 (Nat.digitChar (n / 1000 % 10)) (Nat.digitChar (n / 100 % 10))
      (Nat.digitChar (n / 10 % 10)) (Nat.digitChar (n % 10)) = some n := by
  have h1 : n / 1000 % 10 < 10 := Nat.mod_lt _ (by norm_num)
  have h2 : n / 100 % 10 < 10 := Nat.mod_lt _ (by norm_num)
  have h3 : n / 10 % 10 < 10 := Nat.mod_lt _ (by norm_num)
  have h4 : n % 10 < 10 := Nat.mod_lt _ (by norm_num)
  simp only [dec4, digitVal_digitChar _ h1, digitVal_digitChar _ h2, digitVal_digitChar _ h3,
    digitVal_digitChar _ h4, Option.pure_def, Option.bind_eq_bind, Option.some_bind,
    Option.some.injEq]
  omega

/-- Upper bound (exclusive) of the model's timestamp domain, in ms. -/
def isoMaxMs : Nat := isoDayBound * 86400000

set_option maxRecDepth 16384 in
/-- `new Date(t.toISOString()).getTime() = t`: the ISO-8601 string codec is
lossless at millisecond precision on the model's domain. -/
theorem parseIso_toISOString (t : Nat) (ht : t < isoMaxMs) :
    parseIso (toISOString t) = some t := by
  have hdays : t / 86400000 < isoDayBound := by
    have := isoMaxMs
    unfold isoMaxMs at ht
    omega
  have hciv := civilRT (t / 86400000) hdays
  rcases hc : daysToCivil (t / 86400000) with ⟨y, m, d⟩
  rw [civilOK, hc] at hciv
  simp only [Bool.and_eq_true, beq_iff_eq, Nat.ble_eq] at hciv
  obtain ⟨⟨⟨⟨⟨⟨hrt, hy1⟩, hy2⟩, hm1⟩, hm2⟩, hd1⟩, hd2⟩ := hciv
  have hmsOfDay : t % 86400000 < 86400000 := Nat.mod_lt _ (by norm_num)
  rw [toISOString, hc]
  simp only [pad4, pad2, pad3]
  rw [parseIso]
  simp only [List.cons_append, List.nil_append]
  rw [if_pos (by decide)]
  rw [dec4_pad4 y (by omega), dec2_pad2 m (by omega), dec2_pad2 d (by omega),
    dec2_pad2 (t % 86400000 / 3600000) (by omega),
    dec2_pad2 (t % 86400000 / 60000 % 60) (by omega),
    dec2_pad2 (t % 86400000 / 1000 % 60) (by omega),
    dec3_pad3 (t % 86400000 % 1000) (by omega)]
  show (if 1970 ≤ y ∧ 1 ≤ m ∧ m ≤ 12 ∧ 1 ≤ d ∧ d ≤ 31 ∧
        t % 86400000 / 3600000 < 24 ∧ t % 86400000 / 60000 % 60 < 60 ∧
        t % 86400000 / 1000 % 60 < 60 then
      some (civilToDays y m d * 86400000 +
        (t % 86400000 / 3600000 * 3600000 + t % 86400000 / 60000 % 60 * 60000 +
         t % 86400000 / 1000 % 60 * 1000 + t % 86400000 % 1000))
    else none) = some t
  rw [if_pos (by refine ⟨by omega, by omega, by omega, by omega, by omega, by omega, by omega, by omega⟩)]
  simp only [Option.some.injEq]
  omega

/-!
## Event bus (`packages/core/src/event-bus.ts`)
-/

/-- `OrchestratorEvent`. `type` and `priority` are string unions in the
source; `timestamp` is a `Date`, modelled in epoch milliseconds. -/
structure OrchestratorEvent where
  id : String
  type : String
  priority : String
  sessionId : String
  projectId : String
  timestamp : Nat
  message : String
  data : Json

/-- Substring test on character lists (`String.prototype.includes`). -/
def isPrefixL : List Char → List Char → Bool
  | [], _ => true
  | _ :: _, [] => false
  | a :: as, b :: bs => a == b && isPrefixL as bs

def containsSub (hay needle : List Char) : Bool :=
  match hay with
  | [] => needle.isEmpty
  | c :: t => isPrefixL needle (c :: t) || containsSub t needle

def strIncludes (s pat : String) : Bool := containsSub s.data pat.data

/-- Infer a reasonable priority from event type. -/
def inferPriority (ty : String) : String :=
  if strIncludes ty "stuck" || strIncludes ty "needs_input" || strIncludes ty "errored" then
    "urgent"
  else if strIncludes ty "approved" || strIncludes ty "ready" || strIncludes ty "merged" ||
      strIncludes ty "completed" then
    "action"
  else if strIncludes ty "fail" || strIncludes ty "changes_requested" ||
      strIncludes ty "conflicts" then
    "warning"
  else "info"

/-- `createEvent` fills defaults: a fresh id and the current time come from
the ambient runtime (`randomUUID()` / `new Date()`), passed here as the
`newId` and `now` arguments. -/
def createEvent (newId : String) (now : Nat) (ty : String)
    (sessionId projectId message : String) (data : Json)
    (priority : Option String := none) : OrchestratorEvent :=
  { id := newId
    type := ty
    priority := priority.getD (inferPriority ty)
    sessionId := sessionId
    projectId := projectId
    timestamp := now
    message := message
    data := data }

/-- Serialize an event for JSONL storage: the same object with `timestamp`
replaced by its ISO-8601 string. -/
def serializeEvent (e : OrchestratorEvent) : Json :=
  Json.obj [("id", .str e.id), ("type", .str e.type), ("priority", .str e.priority),
    ("sessionId", .str e.sessionId), ("projectId", .str e.projectId),
    ("timestamp", .str (toISOString e.timestamp)),
    ("message", .str e.message), ("data", e.data)]

/-- Deserialize an event from a JSONL line: `{...raw, timestamp: new
Date(raw["timestamp"])}`. The source casts without validating; a line whose
fields are missing or of the wrong shape is modelled as `none` (the
constructor-time replay also drops lines `JSON.parse` rejects). -/
def assembleEvent : Option String → Option String → Option String → Option String →
    Option String → Option Nat → Option String → Option Json →
    Option OrchestratorEvent
  | some id, some ty, some pr, some sid, some pid, some ts, some msg, some dat =>
    some { id := id, type := ty, priority := pr, sessionId := sid, projectId := pid,
           timestamp := ts, message := msg, data := dat }
  | _, _, _, _, _, _, _, _ => none

def deserializeEvent (j : Json) : Option OrchestratorEvent :=
  assembleEvent (j.getStr "id") (j.getStr "type") (j.getStr "priority")
    (j.getStr "sessionId") (j.getStr "projectId")
    ((j.getStr "timestamp").bind parseIso) (j.getStr "message") (j.getField "data")

/-!
## Lifecycle manager (`packages/core/src/lifecycle-manager.ts`)

The manager's collaborators (plugin registry, session manager, wall clock,
uuid source) are pure oracles bundled in `Env`; its mutable maps
(`states`, `reactionTrackers`) and the `allCompleteEmitted` flag form
`LMState`; its side effects (metadata write-through, bus emissions, local
handler fan-out, agent messages, notifier calls) are an explicit trace.
-/

inductive SessionStatus where
  | spawning | working | pr_open | ci_failed | review_pending
  | changes_requested | approved | mergeable | merged | needs_input
  | stuck | errored | killed
  deriving DecidableEq, Repr, Fintype

def statusName : SessionStatus → String
  | .spawning => "spawning"
  | .working => "working"
  | .pr_open => "pr_open"
  | .ci_failed => "ci_failed"
  | .review_pending => "review_pending"
  | .changes_requested => "changes_requested"
  | .approved => "approved"
  | .mergeable => "mergeable"
  | .merged => "merged"
  | .needs_input => "needs_input"
  | .stuck => "stuck"
  | .errored => "errored"
  | .killed => "killed"

inductive ActivityState where
  | active | blocked | waiting_input | exited
  deriving DecidableEq, Repr

inductive PRState where
  | opened | merged | closed
  deriving DecidableEq, Repr

inductive CIStatus where
  | passing | failing | pending | noChecks
  deriving DecidableEq, Repr

inductive ReviewDecision where
  | approved | changes_requested | pending | noReview
  deriving DecidableEq, Repr

structure PRInfo where
  number : Nat
  deriving DecidableEq, Repr

structure Mergeability where
  mergeable : Bool
  deriving DecidableEq, Repr

structure Session where
  id : String
  projectId : String
  status : SessionStatus
  activity : ActivityState
  pr : Option PRInfo
  runtimeHandle : Option String
  deriving DecidableEq, Repr

/-- Runtime plugin contract: `isAlive(handle)`. -/
structure RuntimePlugin where
  isAlive : String → Except Unit Bool

/-- Agent plugin contract: `detectActivity(session)`. -/
structure AgentPlugin where
  detectActivity : Session → Except Unit ActivityState

/-- SCM plugin contract, the four calls `determineStatus` makes. -/
structure SCMPlugin where
  getPRState : Nat → Except Unit PRState
  getCISummary : Nat → Except Unit CIStatus
  getReviewDecision : Nat → Except Unit ReviewDecision
  getMergeability : Nat → Except Unit Mergeability

/-- `ReactionConfig`. `escalateAfter` is `string | number` in the source
(`Sum.inl` = duration string, `Sum.inr` = count). -/
structure ReactionConfig where
  auto : Option Bool := none
  action : Option String := none
  message : Option String := none
  retries : Option Nat := none
  escalateAfter : Option (String ⊕ Nat) := none
  priority : Option String := none
  deriving DecidableEq, Repr

structure ProjectConfig where
  agent : Option String := none
  runtime : Option String := none
  scm : Option String := none
  reactions : String → Option ReactionConfig := fun _ => none

structure ConfigDefaults where
  agent : String
  runtime : String
  notifiers : List String

structure OrchestratorConfig where
  projects : String → Option ProjectConfig
  reactions : String → Option ReactionConfig
  notificationRouting : String → Option (List String)
  defaults : ConfigDefaults

/-- The string-keyed plugin registry, resolved per slot. A name that does
not resolve yields `none` (the source's `registry.get` returning `null`). -/
structure PluginRegistry where
  getRuntime : String → Option RuntimePlugin
  getAgent : String → Option AgentPlugin
  getSCM : String → Option SCMPlugin
  hasNotifier : String → Bool

/-- Ambient collaborators for one poll step: configuration, registry, the
session manager's `send`, the wall clock and the uuid source. -/
structure Env where
  config : OrchestratorConfig
  registry : PluginRegistry
  send : String → String → Except Unit Unit
  now : Nat
  newId : String

structure ReactionTracker where
  attempts : Nat
  firstTriggered : Nat
  deriving DecidableEq, Repr

structure ReactionResult where
  reactionType : String
  success : Bool
  action : String
  message : Option String := none
  escalated : Bool
  deriving DecidableEq, Repr

/-- The manager's private mutable state. -/
structure LMState where
  states : List (String × SessionStatus)
  reactionTrackers : List (String × ReactionTracker)
  allCompleteEmitted : Bool
  deriving DecidableEq, Repr

/-- Effect trace entries: the externally visible actions of a poll step. -/
inductive Effect where
  | metadataUpdate (sessionId : String) (status : SessionStatus)
  | busEmit (e : OrchestratorEvent)
  | localEmit (e : OrchestratorEvent)
  | sendMsg (sessionId : String) (message : String)
  | notifyCall (name : String) (e : OrchestratorEvent)

/-- Association-list map operations mirroring JS `Map` get/set/delete. -/
def lookupA {α : Type} : List (String × α) → String → Option α
  | [], _ => none
  | (k, v) :: rest, key => if k = key then some v else lookupA rest key

def insertA {α : Type} : List (String × α) → String → α → List (String × α)
  | [], key, v => [(key, v)]
  | (k, w) :: rest, key, v =>
    if k = key then (k, v) :: rest else (k, w) :: insertA rest key v

def eraseA {α : Type} : List (String × α) → String → List (String × α)
  | [], _ => []
  | (k, w) :: rest, key =>
    if k = key then rest else (k, w) :: eraseA rest key

/-- Parse a duration string like "10m", "30s", "1h" to milliseconds
(`^(\d+)(s|m|h)$`; no match yields 0). -/
def parseDuration (str : String) : Nat :=
  let ds := str.data.takeWhile Char.isDigit
  let rest := str.data.dropWhile Char.isDigit
  if ds.isEmpty then 0
  else
    let value := ds.foldl (fun acc c => acc * 10 + (c.toNat - 48)) 0
    match rest with
    | ['s'] => value * 1000
    | ['m'] => value * 60000
    | ['h'] => value * 3600000
    | _ => 0

/-- Determine which event type corresponds to a status transition. -/
def statusToEventType (_from : Option SessionStatus) (toStatus : SessionStatus) : Option String :=
  match toStatus with
  | .working => some "session.working"
  | .pr_open => some "pr.created"
  | .ci_failed => some "ci.failing"
  | .review_pending => some "review.pending"
  | .changes_requested => some "review.changes_requested"
  | .approved => some "review.approved"
  | .mergeable => some "merge.ready"
  | .merged => some "merge.completed"
  | .needs_input => some "session.needs_input"
  | .stuck => some "session.stuck"
  | .errored => some "session.errored"
  | .killed => some "session.killed"
  | .spawning => none

/-- Map event type to reaction config key. -/
def eventToReactionKey (eventType : String) : Option String :=
  if eventType = "ci.failing" then some "ci-failed"
  else if eventType = "review.changes_requested" then some "changes-requested"
  else if eventType = "automated_review.found" then some "bugbot-comments"
  else if eventType = "merge.conflicts" then some "merge-conflicts"
  else if eventType = "merge.ready" then some "approved-and-green"
  else if eventType = "session.stuck" then some "agent-stuck"
  else if eventType = "session.needs_input" then some "agent-needs-input"
  else if eventType = "session.killed" then some "agent-exited"
  else if eventType = "summary.all_complete" then some "all-complete"
  else none

/-- The SCM branch of `determineStatus` (step 3): the body of the
`try { ... }` block. A thrown call surfaces as `.error`. -/
def scmCascade (scm : SCMPlugin) (pr : PRInfo) : Except Unit SessionStatus := do
  let prState ← scm.getPRState pr.number
  if prState = PRState.merged then return SessionStatus.merged
  else if prState = PRState.closed then return SessionStatus.killed
  else
    let ciStatus ← scm.getCISummary pr.number
    if ciStatus = CIStatus.failing then return SessionStatus.ci_failed
    else
      let reviewDecision ← scm.getReviewDecision pr.number
      if reviewDecision = ReviewDecision.changes_requested then
        return SessionStatus.changes_requested
      else if reviewDecision = ReviewDecision.approved then do
        let mergeReady ← scm.getMergeability pr.number
        if mergeReady.mergeable then return SessionStatus.mergeable
        else return SessionStatus.approved
      else if reviewDecision = ReviewDecision.pending then return SessionStatus.review_pending
      else return SessionStatus.pr_open

/-- Step 4 of `determineStatus`: default, promoting `spawning` to
`working`; also the continuation after a swallowed SCM exception. -/
def defaultStatus (session : Session) : SessionStatus :=
  if session.status = SessionStatus.spawning then SessionStatus.working else session.status

/-- The SCM collaborator the manager resolves for a project
(`project.scm ? registry.get("scm", project.scm.plugin) : null`). -/
def resolvedSCM (env : Env) (project : ProjectConfig) : Option SCMPlugin :=
  match project.scm with
  | some plugin => env.registry.getSCM plugin
  | none => none

/-- Step 1 of `determineStatus`: the runtime liveness probe, failing open
(a probe error counts as alive). -/
def runtimeDead (env : Env) (project : ProjectConfig) (session : Session) : Bool :=
  match session.runtimeHandle with
  | some handle =>
    match env.registry.getRuntime (project.runtime.getD env.config.defaults.runtime) with
    | some runtime =>
      match runtime.isAlive handle with
      | .ok alive => !alive
      | .error _ => false
    | none => false
  | none => false

/-- Step 2 of `determineStatus`: the agent activity classification, with a
classification failure falling back to the session's last known activity;
`none` when no agent plugin resolves. -/
def agentActivity (env : Env) (project : ProjectConfig) (session : Session) :
    Option ActivityState :=
  match env.registry.getAgent (project.agent.getD env.config.defaults.agent) with
  | some a =>
    match a.detectActivity session with
    | .ok x => some x
    | .error _ => some session.activity
  | none => none

/-- Determine current status for a session by polling plugins. -/
def determineStatus (env : Env) (session : Session) : SessionStatus :=
  match env.config.projects session.projectId with
  | none => session.status
  | some project =>
    -- 1. Check if runtime is alive
    if runtimeDead env project session then SessionStatus.killed
    else
      -- 2. Check agent activity
      match agentActivity env project session with
      | some ActivityState.exited => SessionStatus.killed
      | some ActivityState.blocked => SessionStatus.stuck
      | some ActivityState.waiting_input => SessionStatus.needs_input
      | _ =>
        -- 3. Check PR state if PR exists; a throw anywhere in the
        -- cascade falls through to the step-4 default
        match session.pr, resolvedSCM env project with
        | some pr, some s =>
          match scmCascade s pr with
          | .ok st => st
          | .error _ => defaultStatus session
        | _, _ => defaultStatus session

/-- Send a notification to all configured notifiers for a priority
(`notificationRouting[priority] ?? defaults.notifiers`); unresolvable
names are skipped and notifier failures are swallowed. -/
def notifyHuman (env : Env) (event : OrchestratorEvent) (priority : String) : List Effect :=
  let eventWithPriority := { event with priority := priority }
  let notifierNames := (env.config.notificationRouting priority).getD env.config.defaults.notifiers
  notifierNames.filterMap fun name =>
    if env.registry.hasNotifier name then some (Effect.notifyCall name eventWithPriority)
    else none

/-- Tracker map key: `` `${sessionId}:${reactionKey}` ``. -/
def trackerKey (sessionId reactionKey : String) : String :=
  sessionId ++ ":" ++ reactionKey

/-- JS truthiness of an optional string (`undefined` and `""` are falsy). -/
def strTruthy : Option String → Bool
  | none => false
  | some s => !s.isEmpty

/-- The escalation condition of `executeReaction`, on the already
incremented tracker. -/
def shouldEscalate (env : Env) (rc : ReactionConfig) (tracker : ReactionTracker) : Bool :=
  (match rc.retries with
   | some r => decide (tracker.attempts > r)
   | none => false) ||
  (match rc.escalateAfter with
   | some (Sum.inl s) =>
     let durationMs := parseDuration s
     decide (durationMs > 0) && decide (env.now - tracker.firstTriggered > durationMs)
   | _ => false) ||
  (match rc.escalateAfter with
   | some (Sum.inr n) => decide (tracker.attempts > n)
   | _ => false)

/-- The tracker `executeReaction` stores: the existing tracker for the key
(or a fresh one with `firstTriggered = now`) with `attempts` incremented. -/
def nextTracker (env : Env) (st : LMState) (sessionId reactionKey : String) : ReactionTracker :=
  let tracker0 := (lookupA st.reactionTrackers (trackerKey sessionId reactionKey)).getD
    { attempts := 0, firstTriggered := env.now }
  { tracker0 with attempts := tracker0.attempts + 1 }

/-- Execute a reaction for an event. Returns the updated manager state,
the effect trace and the `ReactionResult`. -/
def executeReaction (env : Env) (st : LMState) (event : OrchestratorEvent)
    (reactionKey : String) (rc : ReactionConfig) :
    LMState × List Effect × ReactionResult :=
  let tk := trackerKey event.sessionId reactionKey
  -- Increment attempts before checking escalation
  let tracker := nextTracker env st event.sessionId reactionKey
  let st := { st with reactionTrackers := insertA st.reactionTrackers tk tracker }
  if shouldEscalate env rc tracker then
    (st, notifyHuman env event (rc.priority.getD "urgent"),
     { reactionType := reactionKey, success := true, action := "escalated", escalated := true })
  else
    let action := rc.action.getD "notify"
    let fallThrough : LMState × List Effect × ReactionResult :=
      (st, [],
       { reactionType := reactionKey, success := false, action := action, escalated := false })
    if action = "send-to-agent" then
      if strTruthy rc.message then
        let msg := rc.message.getD ""
        match env.send event.sessionId msg with
        | .ok _ =>
          let triggered := createEvent env.newId env.now "reaction.triggered"
            event.sessionId event.projectId
            ("Reaction " ++ reactionKey ++ " sent message to agent")
            (Json.obj [("reactionKey", .str reactionKey), ("attempts", .num tracker.attempts)])
          (st, [Effect.sendMsg event.sessionId msg, Effect.busEmit triggered],
           { reactionType := reactionKey, success := true, action := "send-to-agent",
             message := some msg, escalated := false })
        | .error _ =>
          -- Send failed — allow retry on next poll cycle
          (st, [Effect.sendMsg event.sessionId msg],
           { reactionType := reactionKey, success := false, action := "send-to-agent",
             escalated := false })
      else fallThrough
    else if action = "notify" then
      (st, notifyHuman env event (rc.priority.getD "info"),
       { reactionType := reactionKey, success := true, action := "notify", escalated := false })
    else if action = "auto-merge" then
      (st, notifyHuman env event "action",
       { reactionType := reactionKey, success := true, action := "auto-merge", escalated := false })
    else fallThrough

def isTerminal : SessionStatus → Bool
  | .merged => true
  | .killed => true
  | _ => false

/-- The reaction configuration for a key: project-specific overrides
first, then global (`project?.reactions?.[key] ?? config.reactions[key]`). -/
def resolveReactionConfig (env : Env) (projectId reactionKey : String) :
    Option ReactionConfig :=
  match env.config.projects projectId with
  | some project =>
    match project.reactions reactionKey with
    | some rc => some rc
    | none => env.config.reactions reactionKey
  | none => env.config.reactions reactionKey

/-- `states.get(session.id) ?? session.status`: the manager's last known
status for a session. -/
def lastKnownStatus (st : LMState) (session : Session) : SessionStatus :=
  (lookupA st.states session.id).getD session.status

/-- Poll a single session and handle state transitions. -/
def checkSession (env : Env) (st : LMState) (session : Session) : LMState × List Effect :=
  let oldStatus := lastKnownStatus st session
  let newStatus := determineStatus env session
  if newStatus ≠ oldStatus then
    -- State transition detected
    let st := { st with states := insertA st.states session.id newStatus }
    -- Reset allCompleteEmitted when any session becomes active again
    let st := { st with allCompleteEmitted :=
      if newStatus ≠ SessionStatus.merged ∧ newStatus ≠ SessionStatus.killed then false
      else st.allCompleteEmitted }
    -- Clear reaction trackers for the old status so retries reset
    let st :=
      match statusToEventType none oldStatus with
      | some oldEventType =>
        match eventToReactionKey oldEventType with
        | some oldReactionKey =>
          { st with reactionTrackers :=
              eraseA st.reactionTrackers (trackerKey session.id oldReactionKey) }
        | none => st
      | none => st
    let effects := [Effect.metadataUpdate session.id newStatus]
    -- Emit transition event
    match statusToEventType (some oldStatus) newStatus with
    | some eventType =>
      let event := createEvent env.newId env.now eventType session.id session.projectId
        (session.id ++ ": " ++ statusName oldStatus ++ " → " ++ statusName newStatus)
        (Json.obj [("oldStatus", .str (statusName oldStatus)),
                   ("newStatus", .str (statusName newStatus))])
      let effects := effects ++ [Effect.busEmit event, Effect.localEmit event]
      -- Check if there is a reaction for this event
      match eventToReactionKey eventType with
      | some reactionKey =>
        match resolveReactionConfig env session.projectId reactionKey with
        | some rc =>
          if rc.auto ≠ some false ∧ rc.action ≠ none then
            let r := executeReaction env st event reactionKey rc
            (r.1, effects ++ r.2.1)
          else (st, effects)
        | none => (st, effects)
      | none => (st, effects)
    | none => (st, effects)
  else
    -- No transition but track current state
    ({ st with states := insertA st.states session.id newStatus }, [])

/-- Sequential composition of `checkSession` over a batch. The source runs
the batch with `Promise.allSettled`; per-session state is disjoint and the
only shared writes (monotone `allCompleteEmitted := false`, per-key map
updates) commute, so the sequential fold is the batch's semantics. -/
def checkAll (env : Env) : LMState → List Session → LMState × List Effect
  | st, [] => (st, [])
  | st, s :: rest =>
    let r1 := checkSession env st s
    let r2 := checkAll env r1.1 rest
    (r2.1, r1.2 ++ r2.2)

/-- The poll-cycle filter: sessions that are active OR whose last-observed
status differs from the freshly reported one. -/
def sessionsToCheck (st : LMState) (sessions : List Session) : List Session :=
  sessions.filter fun s =>
    if !isTerminal s.status then true
    else
      match lookupA st.states s.id with
      | none => false
      | some tracked => tracked ≠ s.status

/-- Run one polling cycle across all sessions (the body of `pollAll` after
the re-entrancy guard, given the session manager returned `sessions`). -/
def pollAll (env : Env) (st : LMState) (sessions : List Session) : LMState × List Effect :=
  let r := checkAll env st (sessionsToCheck st sessions)
  -- Check if all sessions are complete (emit only once)
  let activeSessions := sessions.filter fun s => !isTerminal s.status
  if sessions.length > 0 ∧ activeSessions.length = 0 ∧ r.1.allCompleteEmitted = false then
    let event := createEvent env.newId env.now "summary.all_complete" "system" "all"
      ("All " ++ toString sessions.length ++ " sessions complete")
      (Json.obj [("totalSessions", .num sessions.length)])
    ({ r.1 with allCompleteEmitted := true }, r.2 ++ [Effect.busEmit event, Effect.localEmit event])
  else r

/-!
## Lifecycle lock (`packages/cli/src/lib/lifecycle-lock.ts`)

The lock file at the project's deterministic path is modelled as
`Option LockFileContent` (`none` = absent). Operations are sequential
(single process, no interleaved filesystem mutation), so `unlinkSync` of a
file just read and the exclusive re-create after it always succeed; the
source's defensive catches for those races are unreachable here. The OS
probes (`process.kill(pid, 0)` liveness incl. the EPERM-means-alive case,
and the `ps -o lstart=` start-time read) are the `OSEnv` oracles.
-/

/-- What the lock file holds: a JSON value, or bytes `JSON.parse` rejects. -/
inductive LockFileContent where
  | jsonVal (j : Json)
  | garbage

structure LifecycleLockData where
  pid : Int
  projectId : String
  startedAt : String
  deriving DecidableEq, Repr

structure AcquiredLifecycleLock where
  pid : Int
  projectId : String
  deriving DecidableEq, Repr

structure LifecycleLockAttempt where
  acquired : Bool
  existingPid : Option Int := none
  staleRecovered : Bool := false
  lock : Option AcquiredLifecycleLock := none
  deriving DecidableEq, Repr

structure OSEnv where
  signalable : Int → Bool
  processStart : Int → Option Int

def PID_REUSE_GRACE_MS : Nat := 30000

/-- Parse lifecycle lock JSON payload defensively. JSON numbers carry no
fraction in this model, so the source's `Number.isInteger(pid)` check is
always satisfied here. -/
def parseLifecycleLock (raw : LockFileContent) : Option LifecycleLockData :=
  match raw with
  | .garbage => none
  | .jsonVal j =>
    match j.getField "pid", j.getField "projectId", j.getField "startedAt" with
    | some (.num pid), some (.str projectId), some (.str startedAt) =>
      if pid > 0 ∧ projectId ≠ "" ∧ startedAt ≠ "" then
        some { pid := pid, projectId := projectId, startedAt := startedAt }
      else none
    | _, _, _ => none

/-- Read and parse lifecycle lock data (missing file reads as `none`). -/
def readLifecycleLock (file : Option LockFileContent) : Option LifecycleLockData :=
  match file with
  | none => none
  | some content => parseLifecycleLock content

/-- Owner liveness: the pid must be signalable, and when both the lock's
`startedAt` and the OS-reported process start time are available, the
process must not have started more than the grace window after the lock
was taken (PID reuse). -/
def isLockOwnerProcessAlive (os : OSEnv) (lockData : LifecycleLockData) : Bool :=
  if !os.signalable lockData.pid then false
  else
    match parseIso lockData.startedAt with
    | none => true
    | some lockStartedMs =>
      match os.processStart lockData.pid with
      | none => true
      | some processStartedMs =>
        decide (processStartedMs - (lockStartedMs : Int) ≤ (PID_REUSE_GRACE_MS : Int))

/-- The JSON payload `writeLockFile` writes. -/
def lockPayloadJson (payload : LifecycleLockData) : Json :=
  Json.obj [("pid", .num payload.pid), ("projectId", .str payload.projectId),
    ("startedAt", .str payload.startedAt)]

/-- Acquire per-project lifecycle singleton lock, recovering stale locks.
`payload` is `{pid, projectId, startedAt}` as assembled by the source from
its options; returns the attempt record and the resulting file state. -/
def tryAcquireLifecycleLock (os : OSEnv) (payload : LifecycleLockData)
    (file : Option LockFileContent) : LifecycleLockAttempt × Option LockFileContent :=
  match file with
  | none =>
    -- Exclusive create succeeded
    ({ acquired := true,
       lock := some { pid := payload.pid, projectId := payload.projectId } },
     some (.jsonVal (lockPayloadJson payload)))
  | some content =>
    match parseLifecycleLock content with
    | some current =>
      if isLockOwnerProcessAlive os current then
        ({ acquired := false, existingPid := some current.pid }, file)
      else
        -- Stale (dead or recycled pid): unlink and retry the create once
        ({ acquired := true, staleRecovered := true,
           lock := some { pid := payload.pid, projectId := payload.projectId } },
         some (.jsonVal (lockPayloadJson payload)))
    | none =>
      -- Malformed: treat as stale and recover
      ({ acquired := true, staleRecovered := true,
         lock := some { pid := payload.pid, projectId := payload.projectId } },
       some (.jsonVal (lockPayloadJson payload)))

/-- Release lock only when owned by the caller lock handle. Returns
whether the file was removed, and the resulting file state. -/
def releaseLifecycleLock (lock : AcquiredLifecycleLock)
    (file : Option LockFileContent) : Bool × Option LockFileContent :=
  match readLifecycleLock file with
  | none => (false, file)
  | some current =>
    if current.pid ≠ lock.pid ∨ current.projectId ≠ lock.projectId then (false, file)
    else (true, none)

/-!
## Map and key lemmas
-/

theorem lookupA_insertA_self {α : Type} (l : List (String × α)) (k : String) (v : α) :
    lookupA (insertA l k v) k = some v := by
  induction l with
  | nil => simp [insertA, lookupA]
  | cons hd tl ih =>
    obtain ⟨k0, v0⟩ := hd
    by_cases h : k0 = k
    · simp [insertA, lookupA, h]
    · simp [insertA, lookupA, h, ih]

theorem lookupA_insertA_ne {α : Type} (l : List (String × α)) (k k2 : String) (v : α)
    (h : k ≠ k2) : lookupA (insertA l k v) k2 = lookupA l k2 := by
  induction l with
  | nil => simp [insertA, lookupA, h]
  | cons hd tl ih =>
    obtain ⟨k0, v0⟩ := hd
    by_cases h0 : k0 = k
    · subst h0
      simp [insertA, lookupA, h]
    · simp [insertA, lookupA, h0, ih]

theorem lookupA_eraseA_self {α : Type} (l : List (String × α)) (k : String)
    (hnd : (l.map Prod.fst).Nodup) : lookupA (eraseA l k) k = none := by
  induction l with
  | nil => simp [eraseA, lookupA]
  | cons hd tl ih =>
    obtain ⟨k0, v0⟩ := hd
    simp only [List.map_cons, List.nodup_cons] at hnd
    by_cases h0 : k0 = k
    · subst h0
      rw [show eraseA ((k0, v0) :: tl) k0 = tl from by simp [eraseA]]
      clear ih
      induction tl with
      | nil => simp [lookupA]
      | cons hd2 tl2 ih2 =>
        obtain ⟨k1, v1⟩ := hd2
        simp only [List.map_cons, List.mem_cons, List.nodup_cons] at hnd
        have hk1 : k1 ≠ k0 := fun he => hnd.1 (Or.inl he.symm)
        simp only [lookupA, if_neg hk1]
        exact ih2 ⟨fun hm => hnd.1 (Or.inr hm), hnd.2.2⟩
    · simp only [eraseA, if_neg h0, lookupA, if_neg h0]
      exact ih hnd.2

theorem lookupA_eraseA_ne {α : Type} (l : List (String × α)) (k k2 : String)
    (h : k ≠ k2) : lookupA (eraseA l k) k2 = lookupA l k2 := by
  induction l with
  | nil => simp [eraseA]
  | cons hd tl ih =>
    obtain ⟨k0, v0⟩ := hd
    by_cases h0 : k0 = k
    · subst h0
      simp [eraseA, lookupA, h]
    · simp [eraseA, lookupA, h0, ih]

theorem trackerKey_inj_right (s a b : String) (h : trackerKey s a = trackerKey s b) :
    a = b := by
  unfold trackerKey at h
  have hd := congrArg String.data h
  simp only [String.data_append] at hd
  have hab := List.append_cancel_left hd
  exact String.ext hab


/-- The session an effect concerns. -/
def effectSid : Effect → String
  | .metadataUpdate sid _ => sid
  | .busEmit ev => ev.sessionId
  | .localEmit ev => ev.sessionId
  | .sendMsg sid _ => sid
  | .notifyCall _ ev => ev.sessionId

/-- Number of bus emissions of a given event type in a trace. -/
def countBusEmitType (effs : List Effect) (ty : String) : Nat :=
  (effs.filter fun e =>
    match e with
    | .busEmit ev => decide (ev.type = ty)
    | _ => false).length

/-- The reaction key a status's transition event maps to. -/
def reactionKeyOfStatus (s : SessionStatus) : Option String :=
  (statusToEventType none s).bind eventToReactionKey

/-!
## Claim theorems: lifecycle lock
-/

/-- C6: on a create-conflict, `tryAcquireLifecycleLock` fails (reporting
the owner's pid) exactly when the existing lock parses and its owner is
alive — signalable and with an OS-reported start time consistent with the
lock's `startedAt` up to the 30s grace window; a dead pid, a malformed
file, or a start-time discrepancy beyond 30s (PID reuse) makes it delete
the stale file and retry the exclusive create, so a provably dead owner is
always recoverable. -/
theorem c6_acquire_stale_recovery (os : OSEnv) (payload : LifecycleLockData)
    (content : LockFileContent) :
    (∀ d, parseLifecycleLock content = some d → isLockOwnerProcessAlive os d = true →
      tryAcquireLifecycleLock os payload (some content) =
        ({ acquired := false, existingPid := some d.pid }, some content)) ∧
    (∀ d, parseLifecycleLock content = some d → isLockOwnerProcessAlive os d = false →
      tryAcquireLifecycleLock os payload (some content) =
        ({ acquired := true, staleRecovered := true,
           lock := some { pid := payload.pid, projectId := payload.projectId } },
         some (.jsonVal (lockPayloadJson payload)))) ∧
    (parseLifecycleLock content = none →
      tryAcquireLifecycleLock os payload (some content) =
        ({ acquired := true, staleRecovered := true,
           lock := some { pid := payload.pid, projectId := payload.projectId } },
         some (.jsonVal (lockPayloadJson payload)))) ∧
    (∀ d, isLockOwnerProcessAlive os d = true ↔
      (os.signalable d.pid = true ∧
       ∀ ls ps, parseIso d.startedAt = some ls → os.processStart d.pid = some ps →
         ps - (ls : Int) ≤ 30000)) := by
  refine ⟨?_, ?_, ?_, ?_⟩
  · intro d hd halive
    simp only [tryAcquireLifecycleLock]
    rw [hd]
    simp [halive]
  · intro d hd hdead
    simp only [tryAcquireLifecycleLock]
    rw [hd]
    simp [hdead]
  · intro hnone
    simp only [tryAcquireLifecycleLock]
    rw [hnone]
  · intro d
    constructor
    · intro h
      unfold isLockOwnerProcessAlive at h
      cases hs : os.signalable d.pid with
      | false => rw [hs] at h; simp at h
      | true =>
        refine ⟨rfl, ?_⟩
        intro ls ps hls hps
        rw [hs, hls, hps] at h
        simp [PID_REUSE_GRACE_MS] at h
        omega
    · rintro ⟨h1, h2⟩
      unfold isLockOwnerProcessAlive
      rw [h1]
      cases hp : parseIso d.startedAt with
      | none => simp
      | some ls =>
        cases hq : os.processStart d.pid with
        | none => simp
        | some ps =>
          have := h2 ls ps hp hq
          simp [PID_REUSE_GRACE_MS]
          omega

def lockFileW : LockFileContent :=
  .jsonVal (lockPayloadJson { pid := 123, projectId := "proj", startedAt := "bad-date" })

/-- An OS where pid 123 is signalable but its start time is unreadable
(treated as consistent), and every other pid is dead. -/
def osW : OSEnv :=
  { signalable := fun pid => pid = 123
    processStart := fun _ => none }

def payloadW : LifecycleLockData :=
  { pid := 456, projectId := "proj", startedAt := "also-bad" }

theorem c6_witness :
    parseLifecycleLock lockFileW =
      some { pid := 123, projectId := "proj", startedAt := "bad-date" } ∧
    isLockOwnerProcessAlive osW { pid := 123, projectId := "proj", startedAt := "bad-date" } = true ∧
    tryAcquireLifecycleLock osW payloadW (some lockFileW) =
      ({ acquired := false, existingPid := some 123 }, some lockFileW) ∧
    parseLifecycleLock (.garbage) = none ∧
    tryAcquireLifecycleLock osW payloadW (some .garbage) =
      ({ acquired := true, staleRecovered := true,
         lock := some { pid := 456, projectId := "proj" } },
       some (.jsonVal (lockPayloadJson payloadW))) := by
  refine ⟨rfl, rfl, ?_, rfl, ?_⟩
  · exact (c6_acquire_stale_recovery osW payloadW lockFileW).1
      { pid := 123, projectId := "proj", startedAt := "bad-date" } rfl rfl
  · exact (c6_acquire_stale_recovery osW payloadW .garbage).2.2.1 rfl

/-- C7: `releaseLifecycleLock` removes the lock file and returns true
exactly when the file's current contents parse and match the caller's
`(pid, projectId)`; in every other case it returns false and leaves the
file untouched. -/
theorem c7_release_only_owner (lock : AcquiredLifecycleLock) (file : Option LockFileContent) :
    ((∃ d, readLifecycleLock file = some d ∧ d.pid = lock.pid ∧ d.projectId = lock.projectId) →
      releaseLifecycleLock lock file = (true, none)) ∧
    ((∀ d, readLifecycleLock file = some d →
        d.pid ≠ lock.pid ∨ d.projectId ≠ lock.projectId) →
      releaseLifecycleLock lock file = (false, file)) := by
  constructor
  · rintro ⟨d, hd, hp, hq⟩
    unfold releaseLifecycleLock
    rw [hd]
    simp [hp, hq]
  · intro h
    unfold releaseLifecycleLock
    cases hd : readLifecycleLock file with
    | none => rfl
    | some d =>
      rcases h d hd with h1 | h1 <;> simp [h1]

theorem c7_witness :
    readLifecycleLock (some lockFileW) =
      some { pid := 123, projectId := "proj", startedAt := "bad-date" } ∧
    releaseLifecycleLock { pid := 123, projectId := "proj" } (some lockFileW) = (true, none) ∧
    releaseLifecycleLock { pid := 999, projectId := "proj" } (some lockFileW) =
      (false, some lockFileW) := by
  refine ⟨rfl, ?_, ?_⟩
  · exact (c7_release_only_owner { pid := 123, projectId := "proj" } (some lockFileW)).1
      ⟨{ pid := 123, projectId := "proj", startedAt := "bad-date" }, rfl, rfl, rfl⟩
  · exact (c7_release_only_owner { pid := 999, projectId := "proj" } (some lockFileW)).2
      (fun d hd => by cases Option.some.inj hd; left; decide)

/-!
## Claim theorems: status determination (C1)
-/

/-- An SCM collaborator whose every call throws. -/
def scmThrow : SCMPlugin :=
  { getPRState := fun _ => .error ()
    getCISummary := fun _ => .error ()
    getReviewDecision := fun _ => .error ()
    getMergeability := fun _ => .error () }

def projC1 : ProjectConfig := { scm := some "gh" }

def cfgC1 : OrchestratorConfig :=
  { projects := fun p => if p = "proj" then some projC1 else none
    reactions := fun _ => none
    notificationRouting := fun _ => none
    defaults := { agent := "agent", runtime := "runtime", notifiers := [] } }

def regC1 : PluginRegistry :=
  { getRuntime := fun _ => none
    getAgent := fun _ => none
    getSCM := fun n => if n = "gh" then some scmThrow else none
    hasNotifier := fun _ => false }

def envC1 : Env :=
  { config := cfgC1, registry := regC1, send := fun _ _ => .ok (), now := 0, newId := "id" }

def sessC1 : Session :=
  { id := "s1", projectId := "proj", status := .spawning, activity := .active,
    pr := some ⟨7⟩, runtimeHandle := none }

/-- C1 (counterexample): a session with a PR and a configured SCM whose
`getPRState` throws, whose current status is `"spawning"`, does not keep
its status — `determineStatus` falls through to the step-4 default and
promotes it to `"working"`. -/
theorem c1_counterexample :
    sessC1.pr = some ⟨7⟩ ∧
    resolvedSCM envC1 projC1 = some scmThrow ∧
    scmThrow.getPRState 7 = .error () ∧
    sessC1.status = SessionStatus.spawning ∧
    determineStatus envC1 sessC1 = SessionStatus.working ∧
    determineStatus envC1 sessC1 ≠ sessC1.status := by
  refine ⟨rfl, rfl, rfl, rfl, rfl, ?_⟩
  intro h
  exact SessionStatus.noConfusion h

/-- C1 (amended): when the session has a PR, an SCM collaborator is
configured, the runtime and agent steps do not preempt, and the SCM
cascade throws, `determineStatus` returns the step-4 default: the current
status unchanged for every status except `"spawning"`, which is promoted
to `"working"`. -/
theorem c1_scm_failure_keeps_status (env : Env) (session : Session)
    (project : ProjectConfig) (pr : PRInfo) (s : SCMPlugin)
    (hproj : env.config.projects session.projectId = some project)
    (hdead : runtimeDead env project session = false)
    (hact : ∀ x, agentActivity env project session = some x → x = ActivityState.active)
    (hpr : session.pr = some pr)
    (hscm : resolvedSCM env project = some s)
    (hthrow : scmCascade s pr = .error ()) :
    determineStatus env session = defaultStatus session ∧
    (session.status ≠ SessionStatus.spawning →
      determineStatus env session = session.status) := by
  have hmain : determineStatus env session = defaultStatus session := by
    unfold determineStatus
    rw [hproj]
    simp only [hdead, Bool.false_eq_true, if_false]
    cases hA : agentActivity env project session with
    | none =>
      rw [hpr, hscm]
      simp [hthrow]
    | some x =>
      have hx := hact x hA
      subst hx
      rw [hpr, hscm]
      simp [hthrow]
  refine ⟨hmain, fun hns => ?_⟩
  rw [hmain]
  unfold defaultStatus
  simp [hns]

def sessC1b : Session :=
  { id := "s2", projectId := "proj", status := .pr_open, activity := .active,
    pr := some ⟨7⟩, runtimeHandle := none }

theorem c1_witness :
    runtimeDead envC1 projC1 sessC1b = false ∧
    scmCascade scmThrow ⟨7⟩ = .error () ∧
    determineStatus envC1 sessC1b = defaultStatus sessC1b ∧
    (sessC1b.status ≠ SessionStatus.spawning →
      determineStatus envC1 sessC1b = sessC1b.status) := by
  refine ⟨rfl, rfl, ?_⟩
  exact c1_scm_failure_keeps_status envC1 sessC1b projC1 ⟨7⟩ scmThrow rfl rfl
    (fun x hx => Option.noConfusion hx) rfl rfl rfl

/-!
## Claim theorems: reaction engine (C9, C3)
-/

/-- Every branch of `executeReaction` returns the state with the
incremented tracker stored; nothing else in the state changes. -/
theorem executeReaction_state (env : Env) (st : LMState) (ev : OrchestratorEvent)
    (k : String) (rc : ReactionConfig) :
    (executeReaction env st ev k rc).1 =
      { st with reactionTrackers := (insertA st.reactionTrackers
          (trackerKey ev.sessionId k) (nextTracker env st ev.sessionId k)) } := by
  simp only [executeReaction]
  repeat' split
  all_goals rfl

/-- An escalating call reports `escalated` and notifies at the configured
priority (default urgent). -/
theorem executeReaction_escalate (env : Env) (st : LMState) (ev : OrchestratorEvent)
    (k : String) (rc : ReactionConfig)
    (h : shouldEscalate env rc (nextTracker env st ev.sessionId k) = true) :
    (executeReaction env st ev k rc).2.2 =
      { reactionType := k, success := true, action := "escalated", escalated := true } ∧
    (executeReaction env st ev k rc).2.1 = notifyHuman env ev (rc.priority.getD "urgent") := by
  simp only [executeReaction]
  rw [h]
  simp

/-- C9: a non-escalating `send-to-agent` reaction with no message returns
`{success: false, escalated: false}` with an empty effect trace (no send,
no `reaction.triggered` emission), while the tracker's attempt count is
still incremented. -/
theorem c9_send_without_message (env : Env) (st : LMState) (event : OrchestratorEvent)
    (k : String) (rc : ReactionConfig)
    (ha : rc.action = some "send-to-agent")
    (hm : rc.message = none)
    (hesc : shouldEscalate env rc (nextTracker env st event.sessionId k) = false) :
    executeReaction env st event k rc =
      ({ st with reactionTrackers := (insertA st.reactionTrackers
           (trackerKey event.sessionId k) (nextTracker env st event.sessionId k)) },
       [],
       { reactionType := k, success := false, action := "send-to-agent", escalated := false }) ∧
    (nextTracker env st event.sessionId k).attempts =
      ((lookupA st.reactionTrackers (trackerKey event.sessionId k)).getD
        { attempts := 0, firstTriggered := env.now }).attempts + 1 := by
  constructor
  · simp [executeReaction, hesc, ha, hm, strTruthy]
  · rfl

def evW : OrchestratorEvent :=
  { id := "e1", type := "ci.failing", priority := "warning", sessionId := "s1",
    projectId := "proj", timestamp := 0, message := "m", data := .obj [] }

def stEmpty : LMState := { states := [], reactionTrackers := [], allCompleteEmitted := false }

theorem c9_witness :
    (({ action := some "send-to-agent" } : ReactionConfig).action = some "send-to-agent") ∧
    shouldEscalate envC1 { action := some "send-to-agent" }
      (nextTracker envC1 stEmpty evW.sessionId "ci-failed") = false ∧
    executeReaction envC1 stEmpty evW "ci-failed" { action := some "send-to-agent" } =
      ({ stEmpty with reactionTrackers := (insertA stEmpty.reactionTrackers
           (trackerKey evW.sessionId "ci-failed")
           (nextTracker envC1 stEmpty evW.sessionId "ci-failed")) },
       [],
       { reactionType := "ci-failed", success := false, action := "send-to-agent",
         escalated := false }) := by
  refine ⟨rfl, rfl, ?_⟩
  exact (c9_send_without_message envC1 stEmpty evW "ci-failed"
    { action := some "send-to-agent" } rfl rfl rfl).1

/-- C3: with `retries = 2`, the third consecutive execution of the same
reaction key for the same session (no intervening reset) escalates:
`{success: true, action: "escalated", escalated: true}`, notifying the
notifiers routed for the reaction's priority (default `"urgent"`). In
general, `executeReaction` escalates exactly when the incremented attempt
count exceeds `retries`, or `escalateAfter` is a duration string whose
positive parsed length has elapsed since `firstTriggered`, or
`escalateAfter` is a count exceeded by the attempts. -/
theorem c3_escalation_policy :
    (∀ (env1 env2 env3 : Env) (st0 : LMState) (ev : OrchestratorEvent)
       (k : String) (rc : ReactionConfig),
      rc.retries = some 2 →
      lookupA st0.reactionTrackers (trackerKey ev.sessionId k) = none →
      (executeReaction env3
        (executeReaction env2 (executeReaction env1 st0 ev k rc).1 ev k rc).1
        ev k rc).2.2 =
        { reactionType := k, success := true, action := "escalated", escalated := true } ∧
      (executeReaction env3
        (executeReaction env2 (executeReaction env1 st0 ev k rc).1 ev k rc).1
        ev k rc).2.1 = notifyHuman env3 ev (rc.priority.getD "urgent")) ∧
    (∀ (env : Env) (st : LMState) (ev : OrchestratorEvent) (k : String) (rc : ReactionConfig),
      (executeReaction env st ev k rc).2.2.escalated = true ↔
        shouldEscalate env rc (nextTracker env st ev.sessionId k) = true) ∧
    (∀ (env : Env) (rc : ReactionConfig) (t : ReactionTracker),
      shouldEscalate env rc t = true ↔
        ((∃ r, rc.retries = some r ∧ t.attempts > r) ∨
         (∃ sd, rc.escalateAfter = some (Sum.inl sd) ∧ 0 < parseDuration sd ∧
            env.now - t.firstTriggered > parseDuration sd) ∨
         (∃ n, rc.escalateAfter = some (Sum.inr n) ∧ t.attempts > n))) := by
  refine ⟨?_, ?_, ?_⟩
  · intro env1 env2 env3 st0 ev k rc hr h0
    have ht1 : nextTracker env1 st0 ev.sessionId k =
        { attempts := 1, firstTriggered := env1.now } := by
      simp [nextTracker, h0]
    have h1 : lookupA (executeReaction env1 st0 ev k rc).1.reactionTrackers
        (trackerKey ev.sessionId k) = some { attempts := 1, firstTriggered := env1.now } := by
      rw [executeReaction_state, ht1]
      exact lookupA_insertA_self _ _ _
    have ht2 : nextTracker env2 (executeReaction env1 st0 ev k rc).1 ev.sessionId k =
        { attempts := 2, firstTriggered := env1.now } := by
      simp [nextTracker, h1]
    have h2 : lookupA
        (executeReaction env2 (executeReaction env1 st0 ev k rc).1 ev k rc).1.reactionTrackers
        (trackerKey ev.sessionId k) = some { attempts := 2, firstTriggered := env1.now } := by
      rw [executeReaction_state, ht2]
      exact lookupA_insertA_self _ _ _
    have ht3 : nextTracker env3
        (executeReaction env2 (executeReaction env1 st0 ev k rc).1 ev k rc).1 ev.sessionId k =
        { attempts := 3, firstTriggered := env1.now } := by
      simp [nextTracker, h2]
    have hesc : shouldEscalate env3 rc
        { attempts := 3, firstTriggered := env1.now } = true := by
      simp [shouldEscalate, hr]
    exact executeReaction_escalate env3 _ ev k rc (by rw [ht3]; exact hesc)
  · intro env st ev k rc
    cases hesc : shouldEscalate env rc (nextTracker env st ev.sessionId k) with
    | true =>
      simp only [executeReaction, hesc, if_true]
    | false =>
      simp only [executeReaction, hesc, Bool.false_eq_true, if_false]
      constructor
      · intro h
        exfalso
        revert h
        repeat' split
        all_goals simp
      · intro h; cases h
  · intro env rc t
    unfold shouldEscalate
    simp only [Bool.or_eq_true]
    constructor
    · rintro ((h | h) | h)
      · left
        cases hr : rc.retries with
        | none => rw [hr] at h; cases h
        | some r =>
          rw [hr] at h
          exact ⟨r, rfl, of_decide_eq_true h⟩
      · right; left
        cases he : rc.escalateAfter with
        | none => rw [he] at h; cases h
        | some v =>
          cases v with
          | inl sd =>
            rw [he] at h
            simp only [Bool.and_eq_true, decide_eq_true_eq] at h
            exact ⟨sd, rfl, h.1, h.2⟩
          | inr n => rw [he] at h; cases h
      · right; right
        cases he : rc.escalateAfter with
        | none => rw [he] at h; cases h
        | some v =>
          cases v with
          | inl sd => rw [he] at h; cases h
          | inr n =>
            rw [he] at h
            exact ⟨n, rfl, of_decide_eq_true h⟩
    · rintro (⟨r, hr, h⟩ | ⟨sd, he, h1, h2⟩ | ⟨n, he, h⟩)
      · left; left
        rw [hr]
        exact decide_eq_true h
      · left; right
        rw [he]
        simp only [Bool.and_eq_true, decide_eq_true_eq]
        exact ⟨h1, h2⟩
      · right
        rw [he]
        exact decide_eq_true h

def regW : PluginRegistry :=
  { getRuntime := fun _ => none
    getAgent := fun _ => none
    getSCM := fun _ => none
    hasNotifier := fun n => n = "slack" }

def cfgW : OrchestratorConfig :=
  { projects := fun _ => none
    reactions := fun _ => none
    notificationRouting := fun _ => none
    defaults := { agent := "a", runtime := "r", notifiers := ["slack"] } }

def envW3 : Env :=
  { config := cfgW, registry := regW, send := fun _ _ => .ok (), now := 5, newId := "u" }

def rcW3 : ReactionConfig := { action := some "send-to-agent", retries := some 2 }

theorem c3_witness :
    rcW3.retries = some 2 ∧
    lookupA stEmpty.reactionTrackers (trackerKey evW.sessionId "ci-failed") = none ∧
    (executeReaction envW3
      (executeReaction envW3 (executeReaction envW3 stEmpty evW "ci-failed" rcW3).1
        evW "ci-failed" rcW3).1
      evW "ci-failed" rcW3).2.2 =
      { reactionType := "ci-failed", success := true, action := "escalated",
        escalated := true } ∧
    (executeReaction envW3
      (executeReaction envW3 (executeReaction envW3 stEmpty evW "ci-failed" rcW3).1
        evW "ci-failed" rcW3).1
      evW "ci-failed" rcW3).2.1 = notifyHuman envW3 evW (rcW3.priority.getD "urgent") ∧
    notifyHuman envW3 evW (rcW3.priority.getD "urgent") =
      [Effect.notifyCall "slack" { evW with priority := "urgent" }] := by
  have h := c3_escalation_policy.1 envW3 envW3 envW3 stEmpty evW "ci-failed" rcW3 rfl rfl
  exact ⟨rfl, rfl, h.1, h.2, rfl⟩

/-!
## Claim theorems: reaction tracker lifetime (C4)
-/

/-- `statusToEventType` ignores its `from` argument. -/
theorem statusToEventType_from_irrelevant (a b : Option SessionStatus) (t : SessionStatus) :
    statusToEventType a t = statusToEventType b t := rfl

/-- Distinct statuses never share a reaction key. -/
theorem reactionKeyOfStatus_inj :
    ∀ a b : SessionStatus, a ≠ b → (reactionKeyOfStatus a).isSome = true →
      reactionKeyOfStatus a ≠ reactionKeyOfStatus b := by decide

/-- C4: when `checkSession` records a transition away from status A whose
event type has a reaction key, the tracker keyed by
`(sessionId, reactionKey(A))` is deleted — a `ReactionTracker` never
outlives the transition away from the status that created it — and a
later re-trigger of that key restarts its attempt count at 1. -/
theorem c4_tracker_cleared_on_transition (env : Env) (st : LMState) (session : Session)
    (k : String)
    (hnd : (st.reactionTrackers.map Prod.fst).Nodup)
    (htrans : determineStatus env session ≠ lastKnownStatus st session)
    (hk : reactionKeyOfStatus (lastKnownStatus st session) = some k) :
    lookupA (checkSession env st session).1.reactionTrackers (trackerKey session.id k) = none ∧
    (∀ (env2 : Env) (st2 : LMState) (ev : OrchestratorEvent) (rc : ReactionConfig),
      lookupA st2.reactionTrackers (trackerKey ev.sessionId k) = none →
      lookupA (executeReaction env2 st2 ev k rc).1.reactionTrackers (trackerKey ev.sessionId k) =
        some { attempts := 1, firstTriggered := env2.now }) := by
  constructor
  · obtain ⟨ety, h1, h2⟩ := Option.bind_eq_some.mp
      (show (statusToEventType none (lastKnownStatus st session)).bind eventToReactionKey =
        some k from hk)
    simp only [checkSession]
    rw [if_pos htrans]
    simp only [h1, h2]
    split
    · rename_i ty hty
      split
      · rename_i rk hrk
        split
        · rename_i rc hconf
          split
          · rename_i hia
            have hknew : reactionKeyOfStatus (determineStatus env session) = some rk := by
              unfold reactionKeyOfStatus
              rw [statusToEventType_from_irrelevant none
                (some (lastKnownStatus st session)), hty]
              simpa using hrk
            have hne : k ≠ rk := by
              intro he
              subst he
              exact reactionKeyOfStatus_inj _ _ (Ne.symm htrans)
                (by rw [hk]; rfl) (hk.trans hknew.symm)
            have htkne : trackerKey session.id rk ≠ trackerKey session.id k :=
              fun he => hne (trackerKey_inj_right _ _ _ he).symm
            rw [executeReaction_state]
            exact Eq.trans (lookupA_insertA_ne _ _ _ _ htkne)
              (lookupA_eraseA_self st.reactionTrackers _ hnd)
          · exact lookupA_eraseA_self st.reactionTrackers _ hnd
        · exact lookupA_eraseA_self st.reactionTrackers _ hnd
      · exact lookupA_eraseA_self st.reactionTrackers _ hnd
    · exact lookupA_eraseA_self st.reactionTrackers _ hnd
  · intro env2 st2 ev rc hnone
    rw [executeReaction_state]
    have hnt : nextTracker env2 st2 ev.sessionId k =
        { attempts := 1, firstTriggered := env2.now } := by
      simp [nextTracker, hnone]
    refine Eq.trans ?_ (congrArg some hnt)
    exact lookupA_insertA_self _ _ _

def stC4 : LMState :=
  { states := [("s1", .ci_failed)]
    reactionTrackers := [(trackerKey "s1" "ci-failed", { attempts := 2, firstTriggered := 0 })]
    allCompleteEmitted := false }

def sessC4 : Session :=
  { id := "s1", projectId := "p", status := .working, activity := .active,
    pr := none, runtimeHandle := none }

theorem c4_witness :
    (stC4.reactionTrackers.map Prod.fst).Nodup ∧
    determineStatus envW3 sessC4 ≠ lastKnownStatus stC4 sessC4 ∧
    reactionKeyOfStatus (lastKnownStatus stC4 sessC4) = some "ci-failed" ∧
    lookupA (checkSession envW3 stC4 sessC4).1.reactionTrackers
      (trackerKey sessC4.id "ci-failed") = none ∧
    lookupA (executeReaction envW3 stEmpty evW "ci-failed" rcW3).1.reactionTrackers
      (trackerKey evW.sessionId "ci-failed") =
      some { attempts := 1, firstTriggered := envW3.now } := by
  have h := c4_tracker_cleared_on_transition envW3 stC4 sessC4 "ci-failed"
    (by decide) (by decide) rfl
  exact ⟨by decide, by decide, rfl, h.1, h.2 envW3 stEmpty evW rcW3 rfl⟩

/-!
## Claim theorems: end-to-end CI failure (C5)
-/

/-- C5: a session last known as `pr_open` whose SCM reports an open PR
with failing CI is, in one check, tracked as `ci_failed`, with exactly one
`ci.failing` bus emission, and — when a `ci-failed` reaction with action
`send-to-agent`, message "CI is failing. Fix it." and `auto ≠ false` is
configured — a `send(sessionId, "CI is failing. Fix it.")` call. -/
theorem c5_ci_failure_scenario (env : Env) (st : LMState) (session : Session)
    (project : ProjectConfig) (pr : PRInfo) (s : SCMPlugin) (rc : ReactionConfig)
    (hold : lastKnownStatus st session = SessionStatus.pr_open)
    (hproj : env.config.projects session.projectId = some project)
    (hdead : runtimeDead env project session = false)
    (hact : ∀ x, agentActivity env project session = some x → x = ActivityState.active)
    (hpr : session.pr = some pr)
    (hscm : resolvedSCM env project = some s)
    (hprstate : s.getPRState pr.number = .ok PRState.opened)
    (hci : s.getCISummary pr.number = .ok CIStatus.failing)
    (hrc : resolveReactionConfig env session.projectId "ci-failed" = some rc)
    (hauto : rc.auto ≠ some false)
    (haction : rc.action = some "send-to-agent")
    (hmsg : rc.message = some "CI is failing. Fix it.")
    (hretries : rc.retries = none)
    (hea : rc.escalateAfter = none)
    (htracker : lookupA st.reactionTrackers (trackerKey session.id "ci-failed") = none)
    (hsend : env.send session.id "CI is failing. Fix it." = .ok ()) :
    lookupA (checkSession env st session).1.states session.id = some SessionStatus.ci_failed ∧
    countBusEmitType (checkSession env st session).2 "ci.failing" = 1 ∧
    Effect.sendMsg session.id "CI is failing. Fix it." ∈ (checkSession env st session).2 := by
  have hcas : scmCascade s pr = .ok SessionStatus.ci_failed := by
    simp only [scmCascade, hprstate, hci]
    rfl
  have hds : determineStatus env session = SessionStatus.ci_failed := by
    unfold determineStatus
    rw [hproj]
    simp only [hdead, Bool.false_eq_true, if_false]
    cases hA : agentActivity env project session with
    | none =>
      rw [hpr, hscm]
      simp [hcas]
    | some x =>
      have hx := hact x hA
      subst hx
      rw [hpr, hscm]
      simp [hcas]
  have hesc : shouldEscalate env rc { attempts := 1, firstTriggered := env.now } = false := by
    simp [shouldEscalate, hretries, hea]
  have hie : "CI is failing. Fix it.".isEmpty = false := rfl
  refine ⟨?_, ?_, ?_⟩ <;>
  · simp only [checkSession, hold, hds, ne_eq, reduceCtorEq, not_false_eq_true, if_true,
      statusToEventType, eventToReactionKey, hrc, executeReaction, nextTracker, createEvent,
      htracker, Option.getD_none, Option.getD_some, strTruthy, hmsg, haction,
      hsend, hesc, hie]
    simp [hauto, htracker, hesc, hsend, hie, countBusEmitType, lookupA_insertA_self]

def scmFailing : SCMPlugin :=
  { getPRState := fun _ => .ok PRState.opened
    getCISummary := fun _ => .ok CIStatus.failing
    getReviewDecision := fun _ => .ok ReviewDecision.noReview
    getMergeability := fun _ => .ok { mergeable := false } }

def rcC5 : ReactionConfig :=
  { action := some "send-to-agent", message := some "CI is failing. Fix it." }

def projC5 : ProjectConfig :=
  { scm := some "gh", reactions := fun k => if k = "ci-failed" then some rcC5 else none }

def cfgC5 : OrchestratorConfig :=
  { projects := fun p => if p = "proj" then some projC5 else none
    reactions := fun _ => none
    notificationRouting := fun _ => none
    defaults := { agent := "a", runtime := "r", notifiers := [] } }

def regC5 : PluginRegistry :=
  { getRuntime := fun _ => none
    getAgent := fun _ => none
    getSCM := fun n => if n = "gh" then some scmFailing else none
    hasNotifier := fun _ => false }

def envC5 : Env :=
  { config := cfgC5, registry := regC5, send := fun _ _ => .ok (), now := 3, newId := "e" }

def sessC5 : Session :=
  { id := "s1", projectId := "proj", status := .pr_open, activity := .active,
    pr := some ⟨7⟩, runtimeHandle := none }

theorem c5_witness :
    lastKnownStatus stEmpty sessC5 = SessionStatus.pr_open ∧
    scmFailing.getCISummary 7 = .ok CIStatus.failing ∧
    lookupA (checkSession envC5 stEmpty sessC5).1.states sessC5.id =
      some SessionStatus.ci_failed ∧
    countBusEmitType (checkSession envC5 stEmpty sessC5).2 "ci.failing" = 1 ∧
    Effect.sendMsg sessC5.id "CI is failing. Fix it." ∈ (checkSession envC5 stEmpty sessC5).2 := by
  have h := c5_ci_failure_scenario envC5 stEmpty sessC5 projC5 ⟨7⟩ scmFailing rcC5
    rfl rfl rfl (fun x hx => Option.noConfusion hx) rfl rfl rfl rfl rfl (by decide)
    rfl rfl rfl rfl rfl rfl
  exact ⟨rfl, rfl, h.1, h.2.1, h.2.2⟩

/-!
## Claim theorems: poll cycle (C2, C10)
-/

/-- `notifyHuman` only produces notifications about the event's session. -/
theorem notifyHuman_effects_sid (env : Env) (ev : OrchestratorEvent) (p : String) :
    ∀ e ∈ notifyHuman env ev p, effectSid e = ev.sessionId := by
  intro e he
  unfold notifyHuman at he
  obtain ⟨name, -, hsome⟩ := List.mem_filterMap.mp he
  by_cases hn : env.registry.hasNotifier name
  · rw [if_pos hn] at hsome
    cases hsome
    rfl
  · rw [if_neg hn] at hsome
    cases hsome

/-- `executeReaction` only produces effects about the event's session. -/
theorem executeReaction_effects_sid (env : Env) (st : LMState) (ev : OrchestratorEvent)
    (k : String) (rc : ReactionConfig) :
    ∀ e ∈ (executeReaction env st ev k rc).2.1, effectSid e = ev.sessionId := by
  simp only [executeReaction]
  repeat' split
  all_goals intro e he
  all_goals first
    | exact notifyHuman_effects_sid env ev _ e he
    | (simp only [List.mem_cons, List.mem_singleton, List.not_mem_nil] at he
       rcases he with rfl | rfl | he
       · rfl
       · simp [effectSid, createEvent]
       · cases he)
    | (simp only [List.mem_singleton] at he; subst he; rfl)
    | cases he

/-- `checkSession` only produces effects about the checked session. -/
theorem checkSession_effects_sid (env : Env) (st : LMState) (session : Session) :
    ∀ e ∈ (checkSession env st session).2, effectSid e = session.id := by
  simp only [checkSession]
  split
  · repeat' split
    all_goals intro e he
    all_goals
      simp only [List.cons_append, List.nil_append, List.mem_cons, List.mem_append,
        List.not_mem_nil, or_false] at he
    all_goals first
      | (rcases he with rfl | rfl | rfl
         · rfl
         · simp [effectSid, createEvent]
         · simp [effectSid, createEvent])
      | (rcases he with rfl | rfl | rfl | he
         · rfl
         · simp [effectSid, createEvent]
         · simp [effectSid, createEvent]
         · have := executeReaction_effects_sid env _ _ _ _ e he
           rw [this]
           simp [createEvent])
      | (subst he; rfl)
  · intro e he
    cases he

/-- `checkSession` only writes its own session's `states` entry. -/
theorem checkSession_states_other (env : Env) (st : LMState) (session : Session)
    (sid : String) (h : session.id ≠ sid) :
    lookupA (checkSession env st session).1.states sid = lookupA st.states sid := by
  simp only [checkSession]
  split
  · repeat' split
    all_goals (try rw [executeReaction_state])
    all_goals exact lookupA_insertA_ne _ _ _ _ h
  · exact lookupA_insertA_ne _ _ _ _ h

/-- `executeReaction` leaves the all-complete flag alone. -/
theorem executeReaction_flag (env : Env) (st : LMState) (ev : OrchestratorEvent)
    (k : String) (rc : ReactionConfig) :
    (executeReaction env st ev k rc).1.allCompleteEmitted = st.allCompleteEmitted := by
  rw [executeReaction_state]

/-- A recorded transition to a non-terminal status clears the
all-complete flag. -/
theorem checkSession_flag_reset (env : Env) (st : LMState) (session : Session)
    (htrans : determineStatus env session ≠ lastKnownStatus st session)
    (hterm : isTerminal (determineStatus env session) = false) :
    (checkSession env st session).1.allCompleteEmitted = false := by
  have hcond : determineStatus env session ≠ SessionStatus.merged ∧
      determineStatus env session ≠ SessionStatus.killed := by
    cases hd : determineStatus env session <;> simp_all [isTerminal]
  simp only [checkSession]
  rw [if_pos htrans]
  repeat' split
  all_goals (try rw [executeReaction_state])
  all_goals simp [hcond]

/-- Batch checking never touches `states` entries of sessions outside the
batch. -/
theorem checkAll_states_other (env : Env) :
    ∀ (l : List Session) (st : LMState) (sid : String),
      (∀ s2 ∈ l, s2.id ≠ sid) →
      lookupA (checkAll env st l).1.states sid = lookupA st.states sid := by
  intro l
  induction l with
  | nil => intro st sid _; rfl
  | cons hd tl ih =>
    intro st sid h
    simp only [checkAll]
    rw [ih _ _ (fun s2 hs2 => h s2 (List.mem_cons_of_mem hd hs2))]
    exact checkSession_states_other env st hd sid (h hd (List.mem_cons_self hd tl))

/-- Every effect of a batch concerns some session in the batch. -/
theorem checkAll_effects_sid (env : Env) :
    ∀ (l : List Session) (st : LMState),
      ∀ e ∈ (checkAll env st l).2, ∃ s2 ∈ l, effectSid e = s2.id := by
  intro l
  induction l with
  | nil => intro st e he; cases he
  | cons hd tl ih =>
    intro st e he
    simp only [checkAll, List.mem_append] at he
    rcases he with he | he
    · exact ⟨hd, List.mem_cons_self hd tl,
        checkSession_effects_sid env st hd e he⟩
    · obtain ⟨s2, hs2, hsid⟩ := ih _ e he
      exact ⟨s2, List.mem_cons_of_mem hd hs2, hsid⟩

/-- No status transition maps to the all-complete summary event type. -/
theorem statusToEventType_ne_summary :
    ∀ (f : Option SessionStatus) (t : SessionStatus),
      statusToEventType f t ≠ some "summary.all_complete" := by
  decide

/-- `notifyHuman` produces only notification effects, never bus events. -/
theorem busEmit_not_mem_notifyHuman (env : Env) (ev : OrchestratorEvent) (p : String)
    (ev2 : OrchestratorEvent) : Effect.busEmit ev2 ∉ notifyHuman env ev p := by
  intro h
  unfold notifyHuman at h
  obtain ⟨name, -, hsome⟩ := List.mem_filterMap.mp h
  by_cases hn : env.registry.hasNotifier name
  · rw [if_pos hn] at hsome
    cases hsome
  · rw [if_neg hn] at hsome
    cases hsome

/-- Every bus event `executeReaction` emits is the reaction-triggered
event. -/
theorem executeReaction_busEmit_types (env : Env) (st : LMState) (ev : OrchestratorEvent)
    (k : String) (rc : ReactionConfig) :
    ∀ ev2, Effect.busEmit ev2 ∈ (executeReaction env st ev k rc).2.1 →
      ev2.type = "reaction.triggered" := by
  simp only [executeReaction]
  repeat' split
  all_goals intro ev2 h
  all_goals first
    | exact absurd h (busEmit_not_mem_notifyHuman env ev _ ev2)
    | (simp only [List.mem_cons, List.mem_singleton, List.not_mem_nil, or_false] at h
       rcases h with h | h
       · cases h
       · cases h
         rfl)
    | exact absurd (List.mem_singleton.mp h) (fun hc => Effect.noConfusion hc)
    | cases h

/-- Every bus event `checkSession` emits carries the recorded transition's
event type or the reaction-triggered type. -/
theorem checkSession_busEmit_types (env : Env) (st : LMState) (session : Session) :
    ∀ ev2, Effect.busEmit ev2 ∈ (checkSession env st session).2 →
      statusToEventType (some (lastKnownStatus st session)) (determineStatus env session)
        = some ev2.type ∨ ev2.type = "reaction.triggered" := by
  simp only [checkSession]
  split
  · repeat' split
    all_goals intro ev2 h
    all_goals
      simp only [List.cons_append, List.nil_append, List.mem_cons, List.mem_append,
        List.not_mem_nil, or_false] at h
    all_goals first
      | (rcases h with h | h | h | h
         · cases h
         · cases h
           exact Or.inl (by assumption)
         · cases h
         · exact Or.inr (executeReaction_busEmit_types env _ _ _ _ ev2 h))
      | (rcases h with h | h | h
         · cases h
         · cases h
           exact Or.inl (by assumption)
         · cases h)
      | cases h
  · intro ev2 h
    cases h

/-- `checkSession` never emits the all-complete summary event. -/
theorem checkSession_no_summary (env : Env) (st : LMState) (session : Session) :
    ∀ ev2, Effect.busEmit ev2 ∈ (checkSession env st session).2 →
      ev2.type ≠ "summary.all_complete" := by
  intro ev2 h hc
  rcases checkSession_busEmit_types env st session ev2 h with h2 | h2
  · rw [hc] at h2
    exact statusToEventType_ne_summary _ _ h2
  · rw [h2] at hc
    exact absurd hc (by decide)

/-- A check batch never emits the all-complete summary event. -/
theorem checkAll_no_summary (env : Env) :
    ∀ (l : List Session) (st : LMState),
      ∀ ev2, Effect.busEmit ev2 ∈ (checkAll env st l).2 →
        ev2.type ≠ "summary.all_complete" := by
  intro l
  induction l with
  | nil => intro st ev2 h; cases h
  | cons hd tl ih =>
    intro st ev2 h
    simp only [checkAll, List.mem_append] at h
    rcases h with h | h
    · exact checkSession_no_summary env st hd ev2 h
    · exact ih _ ev2 h

theorem countBusEmitType_append (xs ys : List Effect) (ty : String) :
    countBusEmitType (xs ++ ys) ty = countBusEmitType xs ty + countBusEmitType ys ty := by
  unfold countBusEmitType
  rw [List.filter_append, List.length_append]

theorem countBusEmitType_eq_zero (effs : List Effect) (ty : String)
    (h : ∀ ev2, Effect.busEmit ev2 ∈ effs → ev2.type ≠ ty) :
    countBusEmitType effs ty = 0 := by
  unfold countBusEmitType
  rw [List.length_eq_zero, List.filter_eq_nil_iff]
  intro e he
  cases e with
  | busEmit ev2 =>
    simp only [decide_eq_true_eq]
    exact h ev2 he
  | metadataUpdate a b => simp
  | localEmit a => simp
  | sendMsg a b => simp
  | notifyCall a b => simp

/-- Without a recorded transition to a non-terminal status, `checkSession`
leaves the all-complete flag unchanged. -/
theorem checkSession_flag_unchanged (env : Env) (st : LMState) (session : Session)
    (h : determineStatus env session = lastKnownStatus st session ∨
      isTerminal (determineStatus env session) = true) :
    (checkSession env st session).1.allCompleteEmitted = st.allCompleteEmitted := by
  by_cases htrans : determineStatus env session ≠ lastKnownStatus st session
  · have hterm : isTerminal (determineStatus env session) = true := by
      rcases h with h | h
      · exact absurd h htrans
      · exact h
    have hcond : ¬(determineStatus env session ≠ SessionStatus.merged ∧
        determineStatus env session ≠ SessionStatus.killed) := by
      cases hd : determineStatus env session <;> simp_all [isTerminal]
    simp only [checkSession]
    rw [if_pos htrans]
    repeat' split
    all_goals (try rw [executeReaction_state])
    all_goals first
      | exact absurd (by assumption) hcond
      | simp
  · simp only [checkSession]
    rw [if_neg htrans]

/-- A check batch never sets the flag: a cleared flag stays cleared. -/
theorem checkAll_flag_false (env : Env) :
    ∀ (l : List Session) (st : LMState), st.allCompleteEmitted = false →
      (checkAll env st l).1.allCompleteEmitted = false := by
  intro l
  induction l with
  | nil => intro st h; exact h
  | cons hd tl ih =>
    intro st h
    simp only [checkAll]
    apply ih
    by_cases hc : determineStatus env hd = lastKnownStatus st hd ∨
        isTerminal (determineStatus env hd) = true
    · rw [checkSession_flag_unchanged env st hd hc]
      exact h
    · push_neg at hc
      exact checkSession_flag_reset env st hd hc.1 (by simpa using hc.2)

/-- A batch in which no check records a transition to a non-terminal status
leaves the flag unchanged (session ids distinct, the session-list
invariant). -/
theorem checkAll_flag_unchanged (env : Env) :
    ∀ (l : List Session) (st : LMState),
      (∀ s ∈ l, determineStatus env s = lastKnownStatus st s ∨
        isTerminal (determineStatus env s) = true) →
      (l.map Session.id).Nodup →
      (checkAll env st l).1.allCompleteEmitted = st.allCompleteEmitted := by
  intro l
  induction l with
  | nil => intro st _ _; rfl
  | cons hd tl ih =>
    intro st h hnd
    simp only [List.map_cons, List.nodup_cons] at hnd
    have hne : ∀ s ∈ tl, s.id ≠ hd.id := by
      intro s hs he
      exact hnd.1 (he ▸ List.mem_map_of_mem Session.id hs)
    have h2 : ∀ s ∈ tl, determineStatus env s = lastKnownStatus (checkSession env st hd).1 s ∨
        isTerminal (determineStatus env s) = true := by
      intro s hs
      have hlk : lastKnownStatus (checkSession env st hd).1 s = lastKnownStatus st s := by
        unfold lastKnownStatus
        rw [checkSession_states_other env st hd s.id fun he2 => hne s hs he2.symm]
      rw [hlk]
      exact h s (List.mem_cons_of_mem hd hs)
    simp only [checkAll]
    rw [ih (checkSession env st hd).1 h2 hnd.2,
      checkSession_flag_unchanged env st hd (h hd (List.mem_cons_self hd tl))]

/-- C2 (amended): with the one-shot flag un-fired, a non-empty cycle whose
reported statuses are all terminal emits exactly one `summary.all_complete`
and fires the flag — also when the cycle still processes final transitions
of previously tracked sessions; with the flag fired, a cycle in which no
check records a transition to a non-terminal status emits nothing and
leaves the flag fired; and a single check re-arms the flag exactly when it
records a status transition to a non-terminal status: such a check clears
the flag, and any other check leaves it unchanged. -/
theorem c2_all_complete_flag (env : Env) (st : LMState) (sessions : List Session) :
    (st.allCompleteEmitted = false → sessions ≠ [] →
      (∀ s ∈ sessions, isTerminal s.status = true) →
      countBusEmitType (pollAll env st sessions).2 "summary.all_complete" = 1 ∧
      (pollAll env st sessions).1.allCompleteEmitted = true) ∧
    (st.allCompleteEmitted = true →
      (∀ s ∈ sessionsToCheck st sessions,
        determineStatus env s = lastKnownStatus st s ∨
        isTerminal (determineStatus env s) = true) →
      (sessions.map Session.id).Nodup →
      countBusEmitType (pollAll env st sessions).2 "summary.all_complete" = 0 ∧
      (pollAll env st sessions).1.allCompleteEmitted = true) ∧
    (∀ session,
      (determineStatus env session ≠ lastKnownStatus st session →
        isTerminal (determineStatus env session) = false →
        (checkSession env st session).1.allCompleteEmitted = false) ∧
      ((determineStatus env session = lastKnownStatus st session ∨
        isTerminal (determineStatus env session) = true) →
        (checkSession env st session).1.allCompleteEmitted = st.allCompleteEmitted)) := by
  refine ⟨?_, ?_, ?_⟩
  · intro hflag hne hterm
    have hactive : sessions.filter (fun s => !isTerminal s.status) = [] := by
      rw [List.filter_eq_nil_iff]
      intro s hs
      simp [hterm s hs]
    have hflag2 : (checkAll env st (sessionsToCheck st sessions)).1.allCompleteEmitted = false :=
      checkAll_flag_false env _ st hflag
    simp only [pollAll]
    rw [if_pos ⟨List.length_pos.mpr hne, by rw [hactive]; rfl, hflag2⟩]
    refine ⟨?_, rfl⟩
    show countBusEmitType ((checkAll env st (sessionsToCheck st sessions)).2 ++ _)
      "summary.all_complete" = 1
    rw [countBusEmitType_append,
      countBusEmitType_eq_zero _ _ (checkAll_no_summary env _ st)]
    simp [countBusEmitType, createEvent]
  · intro hflag hnore hnd
    have hflag2 : (checkAll env st (sessionsToCheck st sessions)).1.allCompleteEmitted = true := by
      rw [checkAll_flag_unchanged env (sessionsToCheck st sessions) st hnore
        (List.Nodup.sublist (List.Sublist.map Session.id (List.filter_sublist sessions)) hnd)]
      exact hflag
    simp only [pollAll]
    rw [if_neg ?_]
    · exact ⟨countBusEmitType_eq_zero _ _ (checkAll_no_summary env _ st), hflag2⟩
    · intro hcontra
      rw [hflag2] at hcontra
      exact absurd hcontra.2.2 (by decide)
  · intro session
    exact ⟨fun htrans hterm => checkSession_flag_reset env st session htrans hterm,
      fun h => checkSession_flag_unchanged env st session h⟩

def sessA : Session :=
  { id := "a", projectId := "p", status := .merged, activity := .active,
    pr := none, runtimeHandle := none }

def sessB : Session :=
  { id := "b", projectId := "p", status := .working, activity := .active,
    pr := none, runtimeHandle := none }

def sessB2 : Session :=
  { id := "b", projectId := "p", status := .merged, activity := .active,
    pr := none, runtimeHandle := none }

def stB : LMState :=
  { states := [("b", .working)], reactionTrackers := [], allCompleteEmitted := false }

def stBtrue : LMState :=
  { states := [("b", .working)], reactionTrackers := [], allCompleteEmitted := true }

/-- C2 (counterexample): cycle 1 (one merged session) fires the one-shot
event; cycle 2 observes session `b` in the non-terminal state `working`
with no transition, yet the flag stays fired; so cycle 3, all-terminal
again, emits no second `summary.all_complete` — refuting the claim that
any non-terminal observation re-arms the flag. -/
theorem c2_counterexample :
    countBusEmitType (pollAll envW3 stEmpty [sessA]).2 "summary.all_complete" = 1 ∧
    isTerminal sessB.status = false ∧
    sessB ∈ [sessA, sessB] ∧
    sessB ∈ sessionsToCheck (pollAll envW3 stEmpty [sessA]).1 [sessA, sessB] ∧
    determineStatus envW3 sessB = SessionStatus.working ∧
    (pollAll envW3 (pollAll envW3 stEmpty [sessA]).1 [sessA, sessB]).1.allCompleteEmitted =
      true ∧
    (∀ s ∈ [sessA, sessB2], isTerminal s.status = true) ∧
    countBusEmitType
      (pollAll envW3 (pollAll envW3 (pollAll envW3 stEmpty [sessA]).1 [sessA, sessB]).1
        [sessA, sessB2]).2 "summary.all_complete" = 0 := by
  refine ⟨?_, rfl, by simp, ?_, rfl, ?_, ?_, ?_⟩
  · decide
  · decide
  · decide
  · decide
  · decide

theorem c2_witness :
    stB.allCompleteEmitted = false ∧
    sessionsToCheck stB [sessB2] = [sessB2] ∧
    determineStatus envW3 sessB2 ≠ lastKnownStatus stB sessB2 ∧
    countBusEmitType (pollAll envW3 stB [sessB2]).2 "summary.all_complete" = 1 ∧
    (pollAll envW3 stB [sessB2]).1.allCompleteEmitted = true ∧
    countBusEmitType (pollAll envW3 stBtrue [sessB2]).2 "summary.all_complete" = 0 ∧
    (pollAll envW3 stBtrue [sessB2]).1.allCompleteEmitted = true ∧
    (checkSession envW3 stC4 sessC4).1.allCompleteEmitted = false ∧
    (checkSession envW3 stBtrue sessB2).1.allCompleteEmitted = stBtrue.allCompleteEmitted := by
  have h1 := (c2_all_complete_flag envW3 stB [sessB2]).1 rfl (by simp)
    (by intro s hs; simp only [List.mem_singleton] at hs; subst hs; rfl)
  have h2 := (c2_all_complete_flag envW3 stBtrue [sessB2]).2.1 rfl
    (by decide) (by decide)
  have h3 := ((c2_all_complete_flag envW3 stC4 []).2.2 sessC4).1 (by decide) (by decide)
  have h4 := ((c2_all_complete_flag envW3 stBtrue []).2.2 sessB2).2 (Or.inr (by decide))
  exact ⟨rfl, rfl, by decide, h1.1, h1.2, h2.1, h2.2, h3, h4⟩

/-- C10: a terminal-status session the manager has never tracked is
skipped by `pollAll` entirely: it is not selected for checking, its
`states` entry stays absent, and no effect of the cycle (metadata write,
event emission, agent message, notification) concerns it. -/
theorem c10_untracked_terminal_skipped (env : Env) (st : LMState)
    (sessions : List Session) (s : Session)
    (hterm : isTerminal s.status = true)
    (htracked : lookupA st.states s.id = none)
    (hunique : ∀ s2 ∈ sessions, s2.id = s.id → s2 = s)
    (hsys : s.id ≠ "system") :
    s ∉ sessionsToCheck st sessions ∧
    lookupA (pollAll env st sessions).1.states s.id = none ∧
    (∀ e ∈ (pollAll env st sessions).2, effectSid e ≠ s.id) := by
  have hnotin : s ∉ sessionsToCheck st sessions := by
    intro hin
    unfold sessionsToCheck at hin
    have := (List.mem_filter.mp hin).2
    rw [hterm, htracked] at this
    simp at this
  have hids : ∀ s2 ∈ sessionsToCheck st sessions, s2.id ≠ s.id := by
    intro s2 hs2 he
    have hmem : s2 ∈ sessions := (List.mem_filter.mp hs2).1
    have := hunique s2 hmem he
    subst this
    exact hnotin hs2
  have hstates : lookupA (checkAll env st (sessionsToCheck st sessions)).1.states s.id =
      none := by
    rw [checkAll_states_other env _ _ _ hids]
    exact htracked
  have heffs : ∀ e ∈ (checkAll env st (sessionsToCheck st sessions)).2,
      effectSid e ≠ s.id := by
    intro e he hsid
    obtain ⟨s2, hs2, h2⟩ := checkAll_effects_sid env _ _ e he
    exact hids s2 hs2 (h2 ▸ hsid)
  refine ⟨hnotin, ?_, ?_⟩
  · simp only [pollAll]
    split
    · exact hstates
    · exact hstates
  · intro e he
    simp only [pollAll] at he
    split at he
    · simp only [List.mem_append, List.mem_cons, List.not_mem_nil, or_false] at he
      rcases he with he | rfl | rfl
      · exact heffs e he
      · simpa [effectSid, createEvent] using Ne.symm hsys
      · simpa [effectSid, createEvent] using Ne.symm hsys
    · exact heffs e he

def sessT : Session :=
  { id := "t", projectId := "p", status := .killed, activity := .active,
    pr := none, runtimeHandle := none }

theorem c10_witness :
    isTerminal sessT.status = true ∧
    lookupA stEmpty.states sessT.id = none ∧
    sessT ∉ sessionsToCheck stEmpty [sessT, sessB] ∧
    lookupA (pollAll envW3 stEmpty [sessT, sessB]).1.states sessT.id = none ∧
    (∀ e ∈ (pollAll envW3 stEmpty [sessT, sessB]).2, effectSid e ≠ sessT.id) := by
  have h := c10_untracked_terminal_skipped envW3 stEmpty [sessT, sessB] sessT rfl rfl
    (by intro s2 hs2 he
        simp only [List.mem_cons, List.not_mem_nil, or_false] at hs2
        rcases hs2 with rfl | rfl
        · rfl
        · exact absurd he (by decide))
    (by decide)
  exact ⟨rfl, rfl, h.1, h.2.1, h.2.2⟩

/-!
## Claim theorems: event serialization round trip (C8)
-/

/-- C8: deserializing the JSONL line produced by serializing an
`OrchestratorEvent` restores every field, with the timestamp surviving
the ISO-8601 string round trip exactly (JS `Date` has millisecond
resolution, and `toISOString` prints all of it). -/
theorem c8_event_roundtrip (e : OrchestratorEvent) (ht : e.timestamp < isoMaxMs) :
    deserializeEvent (serializeEvent e) = some e := by
  obtain ⟨id, ty, pr, sid, pid, ts, msg, dat⟩ := e
  simp only at ht
  have h1 : (serializeEvent ⟨id, ty, pr, sid, pid, ts, msg, dat⟩).getStr "id" =
    some id := rfl
  have h2 : (serializeEvent ⟨id, ty, pr, sid, pid, ts, msg, dat⟩).getStr "type" =
    some ty := rfl
  have h3 : (serializeEvent ⟨id, ty, pr, sid, pid, ts, msg, dat⟩).getStr "priority" =
    some pr := rfl
  have h4 : (serializeEvent ⟨id, ty, pr, sid, pid, ts, msg, dat⟩).getStr "sessionId" =
    some sid := rfl
  have h5 : (serializeEvent ⟨id, ty, pr, sid, pid, ts, msg, dat⟩).getStr "projectId" =
    some pid := rfl
  have h6 : (serializeEvent ⟨id, ty, pr, sid, pid, ts, msg, dat⟩).getStr "timestamp" =
    some (toISOString ts) := rfl
  have h7 : (serializeEvent ⟨id, ty, pr, sid, pid, ts, msg, dat⟩).getStr "message" =
    some msg := rfl
  have h8 : (serializeEvent ⟨id, ty, pr, sid, pid, ts, msg, dat⟩).getField "data" =
    some dat := rfl
  have hbind : ∀ (a : String) (f : String → Option Nat),
      Option.bind (some a) f = f a := fun _ _ => rfl
  have h6b : Option.bind ((serializeEvent ⟨id, ty, pr, sid, pid, ts, msg, dat⟩).getStr
      "timestamp") parseIso = some ts := by
    rw [h6, hbind, parseIso_toISOString ts ht]
  unfold deserializeEvent
  rw [h1, h2, h3, h4, h5, h6b, h7, h8]
  rfl

def evC8 : OrchestratorEvent :=
  { id := "7d9", type := "merge.completed", priority := "action", sessionId := "s1",
    projectId := "proj", timestamp := 86400043, message := "s1: mergeable → merged",
    data := .obj [("oldStatus", .str "mergeable"), ("newStatus", .str "merged")] }

theorem c8_witness :
    evC8.timestamp < isoMaxMs ∧ deserializeEvent (serializeEvent evC8) = some evC8 :=
  ⟨by decide, c8_event_roundtrip evC8 (by decide)⟩
